import Mathlib

/-!
# Verification of the blood-test data simulator

Shallow embedding of `src/simulateData` (utils, bloodTestGenerator) of the
anima-application repository.  JavaScript numbers are modelled as rationals
(`ℚ`); every call to `Math.random()` is modelled as an explicit oracle value,
assumed to lie in `[0, 1)` where a claim needs it.  JavaScript truthiness of
numbers (`x || y` falls through to `y` when `x` is `0`) is modelled explicitly.
-/

namespace Anima

/-! ## Data model (`src/shared/types.ts`) -/

/-- `Range` with min and max values. -/
structure Range where
  min : ℚ
  max : ℚ
deriving Repr, DecidableEq

/-- Reference ranges for the 13 blood test metrics. -/
structure BloodTestReferenceRanges where
  hemoglobin : Range
  wbc : Range
  rbc : Range
  platelets : Range
  hematocrit : Range
  mcv : Range
  mch : Range
  mchc : Range
  neutrophils : Range
  lymphocytes : Range
  monocytes : Range
  eosinophils : Range
  basophils : Range
deriving Repr, DecidableEq

/-- Patient gender, `'M' | 'F'`. -/
inductive Gender
  | M
  | F
deriving Repr, DecidableEq

/-- Patient data. -/
structure Patient where
  patientId : String
  age : ℕ
  gender : Gender
  medicalHistory : List String
deriving Repr, DecidableEq

/-- Flags for abnormal values. -/
structure AbnormalFlags where
  hemoglobin : Bool
  wbc : Bool
  rbc : Bool
  platelets : Bool
  hematocrit : Bool
  mcv : Bool
  mch : Bool
  mchc : Bool
  neutrophils : Bool
  lymphocytes : Bool
  monocytes : Bool
  eosinophils : Bool
  basophils : Bool
  isAbnormal : Bool
  abnormalConfidence : ℚ
deriving Repr, DecidableEq

/-- A single blood test snapshot. -/
structure BloodTest where
  testId : String
  patientId : String
  testDate : String
  hemoglobin : ℚ
  wbc : ℚ
  rbc : ℚ
  platelets : ℚ
  hematocrit : ℚ
  mcv : ℚ
  mch : ℚ
  mchc : ℚ
  neutrophils : ℚ
  lymphocytes : ℚ
  monocytes : ℚ
  eosinophils : ℚ
  basophils : ℚ
  referenceRanges : BloodTestReferenceRanges
  abnormalFlags : AbnormalFlags
deriving Repr, DecidableEq

/-- Names for the 13 metrics, used to state per-metric properties uniformly. -/
inductive Metric
  | hemoglobin
  | wbc
  | rbc
  | platelets
  | hematocrit
  | mcv
  | mch
  | mchc
  | neutrophils
  | lymphocytes
  | monocytes
  | eosinophils
  | basophils
deriving Repr, DecidableEq

/-- Look a metric's range up in a range set. -/
def BloodTestReferenceRanges.get (R : BloodTestReferenceRanges) : Metric → Range
  | .hemoglobin => R.hemoglobin
  | .wbc => R.wbc
  | .rbc => R.rbc
  | .platelets => R.platelets
  | .hematocrit => R.hematocrit
  | .mcv => R.mcv
  | .mch => R.mch
  | .mchc => R.mchc
  | .neutrophils => R.neutrophils
  | .lymphocytes => R.lymphocytes
  | .monocytes => R.monocytes
  | .eosinophils => R.eosinophils
  | .basophils => R.basophils

/-- A test's stored value of a metric. -/
def BloodTest.value (t : BloodTest) : Metric → ℚ
  | .hemoglobin => t.hemoglobin
  | .wbc => t.wbc
  | .rbc => t.rbc
  | .platelets => t.platelets
  | .hematocrit => t.hematocrit
  | .mcv => t.mcv
  | .mch => t.mch
  | .mchc => t.mchc
  | .neutrophils => t.neutrophils
  | .lymphocytes => t.lymphocytes
  | .monocytes => t.monocytes
  | .eosinophils => t.eosinophils
  | .basophils => t.basophils

/-- A flag record's per-metric flag. -/
def AbnormalFlags.metricFlag (f : AbnormalFlags) : Metric → Bool
  | .hemoglobin => f.hemoglobin
  | .wbc => f.wbc
  | .rbc => f.rbc
  | .platelets => f.platelets
  | .hematocrit => f.hematocrit
  | .mcv => f.mcv
  | .mch => f.mch
  | .mchc => f.mchc
  | .neutrophils => f.neutrophils
  | .lymphocytes => f.lymphocytes
  | .monocytes => f.monocytes
  | .eosinophils => f.eosinophils
  | .basophils => f.basophils

/-! ## Utilities (`src/simulateData/utils.ts`) -/

/-- JS `Math.round`: `⌊x + 0.5⌋`. -/
def jsRound (q : ℚ) : ℚ := (⌊q + 1/2⌋ : ℤ)

/-- `formatNumber(num)` = `Number(num.toFixed(2))`: round to 2 decimals
(half-up for the non-negative values this program produces). -/
def formatNumber (q : ℚ) : ℚ := (⌊q * 100 + 1/2⌋ : ℤ) / 100

/-- `randomInRange(min, max)` = `Math.random() * (max - min) + min`,
with the `Math.random()` draw `r` made explicit. -/
def randomInRange (r min max : ℚ) : ℚ := r * (max - min) + min

/-- `randomBoolean(probability)` = `Math.random() < probability`,
with the draw `r` made explicit. -/
def randomBoolean (r probability : ℚ) : Bool := r < probability

/-! ## Reference ranges (`src/simulateData/bloodTestGenerator.ts`) -/

/-- Reference ranges by gender: male. -/
def maleReferenceRanges : BloodTestReferenceRanges where
  hemoglobin := ⟨27/2, 35/2⟩
  wbc := ⟨9/2, 11⟩
  rbc := ⟨9/2, 59/10⟩
  platelets := ⟨150, 450⟩
  hematocrit := ⟨41, 50⟩
  mcv := ⟨80, 100⟩
  mch := ⟨27, 33⟩
  mchc := ⟨32, 36⟩
  neutrophils := ⟨40, 60⟩
  lymphocytes := ⟨20, 40⟩
  monocytes := ⟨2, 8⟩
  eosinophils := ⟨1, 4⟩
  basophils := ⟨1/2, 1⟩

/-- Reference ranges by gender: female. -/
def femaleReferenceRanges : BloodTestReferenceRanges where
  hemoglobin := ⟨12, 31/2⟩
  wbc := ⟨9/2, 11⟩
  rbc := ⟨4, 26/5⟩
  platelets := ⟨150, 450⟩
  hematocrit := ⟨36, 44⟩
  mcv := ⟨80, 100⟩
  mch := ⟨27, 33⟩
  mchc := ⟨32, 36⟩
  neutrophils := ⟨40, 60⟩
  lymphocytes := ⟨20, 40⟩
  monocytes := ⟨2, 8⟩
  eosinophils := ⟨1, 4⟩
  basophils := ⟨1/2, 1⟩

/-- `getReferenceRanges(patient)`: gender base table, with hemoglobin (both
bounds) and wbc max lowered by 0.5 for `age > 65`. -/
def getReferenceRanges (patient : Patient) : BloodTestReferenceRanges :=
  let baseRanges := match patient.gender with
    | .M => maleReferenceRanges
    | .F => femaleReferenceRanges
  if 65 < patient.age then
    { baseRanges with
      hemoglobin := ⟨baseRanges.hemoglobin.min - 1/2, baseRanges.hemoglobin.max - 1/2⟩
      wbc := ⟨baseRanges.wbc.min, baseRanges.wbc.max - 1/2⟩ }
  else
    baseRanges

/-- `checkIsAbnormal(value, range)`: value outside `[min, max]`. -/
def checkIsAbnormal (value : ℚ) (range : Range) : Bool :=
  value < range.min || value > range.max

/-- `calculateAbnormalConfidence(value, range)`. -/
def calculateAbnormalConfidence (value : ℚ) (range : Range) : ℚ :=
  if range.min ≤ value ∧ value ≤ range.max then 0
  else
    let rangeWidth := range.max - range.min
    let distanceFromRange :=
      if value < range.min then (range.min - value) / rangeWidth
      else (value - range.max) / rangeWidth
    min (1/2 + distanceFromRange) 1

/-! ## `generateId` (`src/simulateData/utils.ts`)

`Math.random().toString(36)` prints `"0."` followed by the base-36 digits of
the drawn fraction (JS doubles are dyadic rationals, so the expansion
terminates; 64 digits of fuel are more than any double needs), or `"0"` for a
zero draw.  `substring(2, 2 + length)` keeps at most `length` of the digits. -/

/-- The character for one base-36 digit, as produced by `Number.toString(36)`:
`0`-`9` then `a`-`z`. -/
def base36Char (d : ℕ) : Char :=
  if d < 10 then Char.ofNat (48 + d) else Char.ofNat (87 + d)

/-- Base-36 fractional digits of `q ∈ [0,1)`, stopping at remainder `0`
or when the fuel runs out. -/
def frac36Digits : ℕ → ℚ → List Char
  | 0, _ => []
  | fuel + 1, q =>
    if q = 0 then []
    else
      let d := (⌊q * 36⌋).toNat
      base36Char d :: frac36Digits fuel (q * 36 - d)

/-- `r.toString(36)` for a draw `r ∈ [0,1)`. -/
def numToString36 (r : ℚ) : List Char :=
  if r = 0 then ['0'] else '0' :: '.' :: frac36Digits 64 r

/-- `generateId(prefix, length)`, with the `Math.random()` draw `r` explicit:
`prefix + "-" + Math.random().toString(36).substring(2, 2 + length)`. -/
def generateId (pre : String) (length : ℕ) (r : ℚ) : String :=
  let randomPart : List Char := ((numToString36 r).drop 2).take length
  pre ++ "-" ++ String.mk randomPart

/-! ## `generateBloodTest` (`src/simulateData/bloodTestGenerator.ts`) -/

/-- The optional `baseValues?: Partial<BloodTest>` argument (only the 13
metric fields are ever supplied). -/
structure PartialValues where
  hemoglobin : Option ℚ := none
  wbc : Option ℚ := none
  rbc : Option ℚ := none
  platelets : Option ℚ := none
  hematocrit : Option ℚ := none
  mcv : Option ℚ := none
  mch : Option ℚ := none
  mchc : Option ℚ := none
  neutrophils : Option ℚ := none
  lymphocytes : Option ℚ := none
  monocytes : Option ℚ := none
  eosinophils : Option ℚ := none
  basophils : Option ℚ := none
deriving Repr, DecidableEq

/-- Look up a metric's seed. -/
def PartialValues.get (b : PartialValues) : Metric → Option ℚ
  | .hemoglobin => b.hemoglobin
  | .wbc => b.wbc
  | .rbc => b.rbc
  | .platelets => b.platelets
  | .hematocrit => b.hematocrit
  | .mcv => b.mcv
  | .mch => b.mch
  | .mchc => b.mchc
  | .neutrophils => b.neutrophils
  | .lymphocytes => b.lymphocytes
  | .monocytes => b.monocytes
  | .eosinophils => b.eosinophils
  | .basophils => b.basophils

/-- `{...b, [m]: v}`. -/
def PartialValues.set (b : PartialValues) : Metric → ℚ → PartialValues
  | .hemoglobin, v => { b with hemoglobin := some v }
  | .wbc, v => { b with wbc := some v }
  | .rbc, v => { b with rbc := some v }
  | .platelets, v => { b with platelets := some v }
  | .hematocrit, v => { b with hematocrit := some v }
  | .mcv, v => { b with mcv := some v }
  | .mch, v => { b with mch := some v }
  | .mchc, v => { b with mchc := some v }
  | .neutrophils, v => { b with neutrophils := some v }
  | .lymphocytes, v => { b with lymphocytes := some v }
  | .monocytes, v => { b with monocytes := some v }
  | .eosinophils, v => { b with eosinophils := some v }
  | .basophils, v => { b with basophils := some v }

/-- JS `base || r` on an optional number: falls through to `r` when the seed
is absent OR equal to `0` (JS falsiness of `0`). -/
def jsOr (base : Option ℚ) (r : ℚ) : ℚ :=
  match base with
  | some v => if v = 0 then r else v
  | none => r

/-- The `Math.random()` draws one `generateBloodTest` call can consume:
one per metric (used only when that metric has no truthy seed) and one
for the `testId`. -/
structure TestRandom where
  idDraw : ℚ
  hemoglobin : ℚ
  wbc : ℚ
  rbc : ℚ
  platelets : ℚ
  hematocrit : ℚ
  mcv : ℚ
  mch : ℚ
  mchc : ℚ
  neutrophils : ℚ
  lymphocytes : ℚ
  monocytes : ℚ
  eosinophils : ℚ
  basophils : ℚ
deriving Repr, DecidableEq

/-- A test draw's random value for a given metric. -/
def TestRandom.get (rnd : TestRandom) : Metric → ℚ
  | .hemoglobin => rnd.hemoglobin
  | .wbc => rnd.wbc
  | .rbc => rnd.rbc
  | .platelets => rnd.platelets
  | .hematocrit => rnd.hematocrit
  | .mcv => rnd.mcv
  | .mch => rnd.mch
  | .mchc => rnd.mchc
  | .neutrophils => rnd.neutrophils
  | .lymphocytes => rnd.lymphocytes
  | .monocytes => rnd.monocytes
  | .eosinophils => rnd.eosinophils
  | .basophils => rnd.basophils

/-- `generateBloodTest(patient, testDate, baseValues)`, with the random
draws explicit. -/
def generateBloodTest (patient : Patient) (testDate : String)
    (baseValues : PartialValues) (rnd : TestRandom) : BloodTest :=
  let referenceRanges := getReferenceRanges patient
  let hemoglobin := formatNumber (jsOr baseValues.hemoglobin
    (randomInRange rnd.hemoglobin (referenceRanges.hemoglobin.min - 2) (referenceRanges.hemoglobin.max + 2)))
  let wbc := formatNumber (jsOr baseValues.wbc
    (randomInRange rnd.wbc (referenceRanges.wbc.min - 2) (referenceRanges.wbc.max + 3)))
  let rbc := formatNumber (jsOr baseValues.rbc
    (randomInRange rnd.rbc (referenceRanges.rbc.min - 1) (referenceRanges.rbc.max + 1)))
  let platelets := jsRound (jsOr baseValues.platelets
    (randomInRange rnd.platelets (referenceRanges.platelets.min - 50) (referenceRanges.platelets.max + 100)))
  let hematocrit := formatNumber (jsOr baseValues.hematocrit
    (randomInRange rnd.hematocrit (referenceRanges.hematocrit.min - 5) (referenceRanges.hematocrit.max + 5)))
  let mcv := formatNumber (jsOr baseValues.mcv
    (randomInRange rnd.mcv (referenceRanges.mcv.min - 10) (referenceRanges.mcv.max + 10)))
  let mch := formatNumber (jsOr baseValues.mch
    (randomInRange rnd.mch (referenceRanges.mch.min - 5) (referenceRanges.mch.max + 5)))
  let mchc := formatNumber (jsOr baseValues.mchc
    (randomInRange rnd.mchc (referenceRanges.mchc.min - 4) (referenceRanges.mchc.max + 4)))
  let neutrophils := formatNumber (jsOr baseValues.neutrophils
    (randomInRange rnd.neutrophils (referenceRanges.neutrophils.min - 10) (referenceRanges.neutrophils.max + 15)))
  let lymphocytes := formatNumber (jsOr baseValues.lymphocytes
    (randomInRange rnd.lymphocytes (referenceRanges.lymphocytes.min - 5) (referenceRanges.lymphocytes.max + 10)))
  let monocytes := formatNumber (jsOr baseValues.monocytes
    (randomInRange rnd.monocytes (referenceRanges.monocytes.min - 1) (referenceRanges.monocytes.max + 3)))
  let eosinophils := formatNumber (jsOr baseValues.eosinophils
    (randomInRange rnd.eosinophils (referenceRanges.eosinophils.min - 1/2) (referenceRanges.eosinophils.max + 2)))
  let basophils := formatNumber (jsOr baseValues.basophils
    (randomInRange rnd.basophils (referenceRanges.basophils.min - 1/5) (referenceRanges.basophils.max + 1/2)))
  let abnormalFlags : AbnormalFlags :=
    { hemoglobin := checkIsAbnormal hemoglobin referenceRanges.hemoglobin
      wbc := checkIsAbnormal wbc referenceRanges.wbc
      rbc := checkIsAbnormal rbc referenceRanges.rbc
      platelets := checkIsAbnormal platelets referenceRanges.platelets
      hematocrit := checkIsAbnormal hematocrit referenceRanges.hematocrit
      mcv := checkIsAbnormal mcv referenceRanges.mcv
      mch := checkIsAbnormal mch referenceRanges.mch
      mchc := checkIsAbnormal mchc referenceRanges.mchc
      neutrophils := checkIsAbnormal neutrophils referenceRanges.neutrophils
      lymphocytes := checkIsAbnormal lymphocytes referenceRanges.lymphocytes
      monocytes := checkIsAbnormal monocytes referenceRanges.monocytes
      eosinophils := checkIsAbnormal eosinophils referenceRanges.eosinophils
      basophils := checkIsAbnormal basophils referenceRanges.basophils
      isAbnormal := false
      abnormalConfidence := 0 }
  let abnormalCount :=
    ([abnormalFlags.hemoglobin, abnormalFlags.wbc, abnormalFlags.rbc,
      abnormalFlags.platelets, abnormalFlags.hematocrit, abnormalFlags.mcv,
      abnormalFlags.mch, abnormalFlags.mchc, abnormalFlags.neutrophils,
      abnormalFlags.lymphocytes, abnormalFlags.monocytes,
      abnormalFlags.eosinophils, abnormalFlags.basophils].filter id).length
  let isAbnormal := 2 ≤ abnormalCount
  let confidenceSum : ℚ :=
    (if abnormalFlags.hemoglobin then calculateAbnormalConfidence hemoglobin referenceRanges.hemoglobin else 0)
    + (if abnormalFlags.wbc then calculateAbnormalConfidence wbc referenceRanges.wbc else 0)
    + (if abnormalFlags.platelets then calculateAbnormalConfidence platelets referenceRanges.platelets else 0)
    + (if abnormalFlags.hematocrit then calculateAbnormalConfidence hematocrit referenceRanges.hematocrit else 0)
  let confidenceCount : ℕ :=
    (if abnormalFlags.hemoglobin then 1 else 0)
    + (if abnormalFlags.wbc then 1 else 0)
    + (if abnormalFlags.platelets then 1 else 0)
    + (if abnormalFlags.hematocrit then 1 else 0)
  let abnormalConfidence :=
    if 0 < confidenceCount then formatNumber (confidenceSum / confidenceCount) else 0
  { testId := generateId "T" 10 rnd.idDraw
    patientId := patient.patientId
    testDate := testDate
    hemoglobin := hemoglobin
    wbc := wbc
    rbc := rbc
    platelets := platelets
    hematocrit := hematocrit
    mcv := mcv
    mch := mch
    mchc := mchc
    neutrophils := neutrophils
    lymphocytes := lymphocytes
    monocytes := monocytes
    eosinophils := eosinophils
    basophils := basophils
    referenceRanges := referenceRanges
    abnormalFlags := { abnormalFlags with
      isAbnormal := isAbnormal
      abnormalConfidence := abnormalConfidence } }

/-! ## `generateBloodTestSeries` (`src/simulateData/bloodTestGenerator.ts`)

The loop `for i in 0..count-1` is unfolded into a recursion on the test
index: test `0` is generated with an empty seed map, and test `i+1` is
generated from the seed map holding all 13 values of test `i`, with the
trending metric's entry overridden when the series is trending.  This is
exactly the loop's data flow: `baseValues` is overwritten with the full
value set of the test just generated at the end of each iteration.

The `monthsRange` parameter only feeds `randomDateInPastMonths`, whose
output strings are supplied directly by the oracle here. -/

/-- The fixed candidate list of 10 metrics a trend can target. -/
def candidateMetrics : List Metric :=
  [.hemoglobin, .wbc, .rbc, .platelets, .hematocrit,
   .mcv, .mch, .mchc, .neutrophils, .lymphocytes]

/-- The `Math.random()` draws one `generateBloodTestSeries` call can consume:
the drawn date strings, the trend decision draw, the target-metric draw, a
direction draw for every loop iteration (the source draws a fresh
`randomBoolean()` inside the loop body), and the per-test draws. -/
structure SeriesRandom where
  dateDraws : ℕ → String
  trendDraw : ℚ
  metricDraw : ℚ
  dirDraws : ℕ → ℚ
  testRnds : ℕ → TestRandom

/-- The seed map built from a test at the end of a loop iteration:
all 13 metric values of that test. -/
def BloodTest.toPartialValues (t : BloodTest) : PartialValues where
  hemoglobin := some t.hemoglobin
  wbc := some t.wbc
  rbc := some t.rbc
  platelets := some t.platelets
  hematocrit := some t.hematocrit
  mcv := some t.mcv
  mch := some t.mch
  mchc := some t.mchc
  neutrophils := some t.neutrophils
  lymphocytes := some t.lymphocytes
  monocytes := some t.monocytes
  eosinophils := some t.eosinophils
  basophils := some t.basophils

/-- The `count` drawn dates, sorted ascending (JS `Array.sort` with the
default string comparison). -/
def sortedDates (count : ℕ) (rnd : SeriesRandom) : List String :=
  ((List.range count).map rnd.dateDraws).insertionSort (· ≤ ·)

/-- `hasAbnormalTrend = randomBoolean(abnormalProbability)`. -/
def hasAbnormalTrend (abnormalProbability : ℚ) (rnd : SeriesRandom) : Bool :=
  randomBoolean rnd.trendDraw abnormalProbability

/-- `abnormalMetric`: `null` unless trending, otherwise
`metrics[Math.floor(Math.random() * metrics.length)]` over the 10
candidates. -/
def abnormalMetric (abnormalProbability : ℚ) (rnd : SeriesRandom) : Option Metric :=
  if hasAbnormalTrend abnormalProbability rnd then
    some (candidateMetrics.getD (⌊rnd.metricDraw * 10⌋).toNat .hemoglobin)
  else
    none

/-- `trendFactor = 0.05 * Math.min(i, 3)`. -/
def trendFactor (i : ℕ) : ℚ := 1/20 * min (i : ℚ) 3

/-- The trending metric's next raw value at iteration `i`: multiplicative
drift away from the previous value, clamped beyond the range boundary by
10% on the last two iterations (`i >= count - 2`). -/
def trendValue (range : Range) (direction : Bool) (count i : ℕ) (prevValue : ℚ) : ℚ :=
  if direction then
    let newValue := prevValue * (1 + trendFactor i)
    if count - 2 ≤ i then max newValue (range.max * (11/10)) else newValue
  else
    let newValue := prevValue * (1 - trendFactor i)
    if count - 2 ≤ i then min newValue (range.min * (9/10)) else newValue

/-- The test generated at index `i` of the series loop. -/
def seriesTest (patient : Patient) (count : ℕ) (abnormalProbability : ℚ)
    (rnd : SeriesRandom) : ℕ → BloodTest
  | 0 => generateBloodTest patient ((sortedDates count rnd).getD 0 "") {} (rnd.testRnds 0)
  | i + 1 =>
    let prev := seriesTest patient count abnormalProbability rnd i
    let baseValues := prev.toPartialValues
    let seededValues := match abnormalMetric abnormalProbability rnd with
      | some m =>
        let referenceRanges := getReferenceRanges patient
        let range := referenceRanges.get m
        let direction := randomBoolean (rnd.dirDraws (i + 1)) (1/2)
        baseValues.set m (formatNumber (trendValue range direction count (i + 1) (prev.value m)))
      | none => baseValues
    generateBloodTest patient ((sortedDates count rnd).getD (i + 1) "") seededValues (rnd.testRnds (i + 1))

/-- `generateBloodTestSeries(patient, count, monthsRange, abnormalProbability)`,
with the random draws explicit. -/
def generateBloodTestSeries (patient : Patient) (count : ℕ)
    (abnormalProbability : ℚ) (rnd : SeriesRandom) : List BloodTest :=
  (List.range count).map (seriesTest patient count abnormalProbability rnd)

/-! ## `determinePatientAbnormality` (`src/simulateData/bloodTestGenerator.ts`) -/

/-- The patient-level label. -/
inductive PatientLabel
  | NORMAL
  | ABNORMAL
deriving Repr, DecidableEq

/-- The return value `{label, confidence}`. -/
structure AbnormalityResult where
  label : PatientLabel
  confidence : ℚ
deriving Repr, DecidableEq

/-- `tests.filter(test => test.abnormalFlags.isAbnormal)`. -/
def abnormalTestsOf (tests : List BloodTest) : List BloodTest :=
  tests.filter (·.abnormalFlags.isAbnormal)

/-- `avgConfidence`: mean `abnormalConfidence` over the abnormal tests,
rounded via `formatNumber`, `0` when there are none. -/
def avgConfidenceOf (tests : List BloodTest) : ℚ :=
  let abnormalTests := abnormalTestsOf tests
  let totalConfidence :=
    abnormalTests.foldl (fun sum t => sum + t.abnormalFlags.abnormalConfidence) 0
  if 0 < abnormalTests.length then
    formatNumber (totalConfidence / abnormalTests.length)
  else
    0

/-- `determinePatientAbnormality(tests)`, with the ambient
`ABNORMAL_PROBABILITY` configuration and the `Math.random()` label draw
explicit.  For an empty list JS computes `abnormalRatio = 0/0 = NaN` and
`NaN >= 0.3` is `false`; `ℚ` division gives `0/0 = 0` and `0.3 ≤ 0` is
`false`, the same outcome. -/
def determinePatientAbnormality (tests : List BloodTest)
    (abnormalProbability labelDraw : ℚ) : AbnormalityResult :=
  let abnormalTests := abnormalTestsOf tests
  let abnormalRatio : ℚ := abnormalTests.length / tests.length
  let avgConfidence := avgConfidenceOf tests
  let hasAbnormalTests :=
    decide (3/10 ≤ abnormalRatio)
    || tests.any (fun t => 4/5 < t.abnormalFlags.abnormalConfidence)
  let isAbnormal := hasAbnormalTests && randomBoolean labelDraw abnormalProbability
  { label := if isAbnormal then .ABNORMAL else .NORMAL
    confidence := if isAbnormal then avgConfidence else 1 - avgConfidence }

/-! ## Rounding lemmas -/

theorem formatNumber_mono {a b : ℚ} (h : a ≤ b) : formatNumber a ≤ formatNumber b := by
  unfold formatNumber
  have hf : (⌊a * 100 + 1/2⌋ : ℤ) ≤ ⌊b * 100 + 1/2⌋ := Int.floor_le_floor (by linarith)
  have hq : ((⌊a * 100 + 1/2⌋ : ℤ) : ℚ) ≤ ((⌊b * 100 + 1/2⌋ : ℤ) : ℚ) := by exact_mod_cast hf
  linarith

theorem jsRound_mono {a b : ℚ} (h : a ≤ b) : jsRound a ≤ jsRound b := by
  unfold jsRound
  exact_mod_cast Int.floor_le_floor (by linarith)

theorem floor_add_half_intCast (n : ℤ) : (⌊(n : ℚ) + 1/2⌋ : ℤ) = n := by
  rw [Int.floor_int_add]
  norm_num

theorem jsRound_intCast (n : ℤ) : jsRound (n : ℚ) = n := by
  unfold jsRound
  rw [floor_add_half_intCast]

theorem formatNumber_int_div (n : ℤ) : formatNumber ((n : ℚ) / 100) = (n : ℚ) / 100 := by
  unfold formatNumber
  rw [div_mul_cancel₀ (b := (100 : ℚ)) (n : ℚ) (by norm_num), floor_add_half_intCast]

theorem formatNumber_idem (q : ℚ) : formatNumber (formatNumber q) = formatNumber q :=
  formatNumber_int_div _

theorem formatNumber_intCast (n : ℤ) : formatNumber (n : ℚ) = n := by
  have h := formatNumber_int_div (100 * n)
  have e : ((100 * n : ℤ) : ℚ) / 100 = (n : ℚ) := by push_cast; ring
  rw [e] at h
  exact h

theorem formatNumber_jsRound (q : ℚ) : formatNumber (jsRound q) = jsRound q :=
  formatNumber_intCast _

theorem jsRound_formatNumber_int (n : ℤ) : jsRound ((n : ℚ)) = n := jsRound_intCast n

/-- Per-metric final rounding in `generateBloodTest`: `Math.round` for
platelets, `formatNumber` (2 decimals) for every other metric. -/
def metricFmt : Metric → ℚ → ℚ
  | .platelets => jsRound
  | _ => formatNumber

theorem metricFmt_mono (m : Metric) {a b : ℚ} (h : a ≤ b) : metricFmt m a ≤ metricFmt m b := by
  cases m <;> first
    | exact formatNumber_mono h
    | exact jsRound_mono h

theorem metricFmt_idem (m : Metric) (q : ℚ) : metricFmt m (metricFmt m q) = metricFmt m q := by
  cases m <;> first
    | exact formatNumber_idem q
    | exact jsRound_intCast _

theorem formatNumber_metricFmt (m : Metric) (q : ℚ) :
    formatNumber (metricFmt m q) = metricFmt m q := by
  cases m <;> first
    | exact formatNumber_idem q
    | exact formatNumber_jsRound q

/-! ## Accessor lemmas for `generateBloodTest` -/

/-- Lower pad subtracted from `range.min` when a metric's value is drawn. -/
def padLo : Metric → ℚ
  | .hemoglobin => 2
  | .wbc => 2
  | .rbc => 1
  | .platelets => 50
  | .hematocrit => 5
  | .mcv => 10
  | .mch => 5
  | .mchc => 4
  | .neutrophils => 10
  | .lymphocytes => 5
  | .monocytes => 1
  | .eosinophils => 1/2
  | .basophils => 1/5

/-- Upper pad added to `range.max` when a metric's value is drawn. -/
def padHi : Metric → ℚ
  | .hemoglobin => 2
  | .wbc => 3
  | .rbc => 1
  | .platelets => 100
  | .hematocrit => 5
  | .mcv => 10
  | .mch => 5
  | .mchc => 4
  | .neutrophils => 15
  | .lymphocytes => 10
  | .monocytes => 3
  | .eosinophils => 2
  | .basophils => 1/2

/-- All 13 metrics, in the order the source counts flags. -/
def allMetrics : List Metric :=
  [.hemoglobin, .wbc, .rbc, .platelets, .hematocrit, .mcv, .mch, .mchc,
   .neutrophils, .lymphocytes, .monocytes, .eosinophils, .basophils]

/-- The count of true per-metric flags (the `isAbnormal` and
`abnormalConfidence` fields do not participate). -/
def abnormalFlagCount (f : AbnormalFlags) : ℕ :=
  ((allMetrics.map f.metricFlag).filter id).length

/-- The four metrics `abnormalConfidence` is computed from. -/
def confMetrics : List Metric := [.hemoglobin, .wbc, .platelets, .hematocrit]

/-- `distanceFromRange` as computed inside `calculateAbnormalConfidence`. -/
def distanceFromRange (value : ℚ) (range : Range) : ℚ :=
  if value < range.min then (range.min - value) / (range.max - range.min)
  else (value - range.max) / (range.max - range.min)

theorem generateBloodTest_value (p : Patient) (d : String) (b : PartialValues)
    (rnd : TestRandom) (m : Metric) :
    (generateBloodTest p d b rnd).value m
      = metricFmt m (jsOr (b.get m) (randomInRange (rnd.get m)
          (((getReferenceRanges p).get m).min - padLo m)
          (((getReferenceRanges p).get m).max + padHi m))) := by
  cases m <;> rfl

theorem generateBloodTest_referenceRanges (p : Patient) (d : String)
    (b : PartialValues) (rnd : TestRandom) :
    (generateBloodTest p d b rnd).referenceRanges = getReferenceRanges p := rfl

theorem generateBloodTest_flag (p : Patient) (d : String) (b : PartialValues)
    (rnd : TestRandom) (m : Metric) :
    (generateBloodTest p d b rnd).abnormalFlags.metricFlag m
      = checkIsAbnormal ((generateBloodTest p d b rnd).value m)
          ((getReferenceRanges p).get m) := by
  cases m <;> rfl

theorem generateBloodTest_isAbnormal (p : Patient) (d : String)
    (b : PartialValues) (rnd : TestRandom) :
    (generateBloodTest p d b rnd).abnormalFlags.isAbnormal
      = decide (2 ≤ abnormalFlagCount (generateBloodTest p d b rnd).abnormalFlags) := rfl

theorem checkIsAbnormal_iff (v : ℚ) (r : Range) :
    checkIsAbnormal v r = true ↔ v < r.min ∨ r.max < v := by
  simp [checkIsAbnormal]

theorem calculateAbnormalConfidence_of_abnormal {v : ℚ} {r : Range}
    (h : checkIsAbnormal v r = true) :
    calculateAbnormalConfidence v r = min (1/2 + distanceFromRange v r) 1 := by
  rw [checkIsAbnormal_iff] at h
  unfold calculateAbnormalConfidence
  rw [if_neg]
  · rfl
  · rintro ⟨h1, h2⟩
    rcases h with h | h <;> linarith

theorem PartialValues.get_set_self (b : PartialValues) (m : Metric) (v : ℚ) :
    (b.set m v).get m = some v := by
  cases m <;> rfl

theorem PartialValues.get_toPartialValues (t : BloodTest) (m : Metric) :
    t.toPartialValues.get m = some (t.value m) := by
  cases m <;> rfl

/-! ## Claim theorems -/

/-- C3: for every BloodTest produced by `generateBloodTest`, each of the 13
per-metric flags is true exactly when the value lies outside that metric's
stored reference range, and `isAbnormal` is true iff at least 2 of those 13
flags are true (the `isAbnormal`/`abnormalConfidence` fields are not part of
the count). -/
theorem flags_outside_range_and_two_flag_threshold
    (p : Patient) (d : String) (b : PartialValues) (rnd : TestRandom) :
    (∀ m : Metric,
      (generateBloodTest p d b rnd).abnormalFlags.metricFlag m = true ↔
        ((generateBloodTest p d b rnd).value m
            < (((generateBloodTest p d b rnd).referenceRanges).get m).min
          ∨ (((generateBloodTest p d b rnd).referenceRanges).get m).max
            < (generateBloodTest p d b rnd).value m))
    ∧ ((generateBloodTest p d b rnd).abnormalFlags.isAbnormal = true ↔
        2 ≤ abnormalFlagCount (generateBloodTest p d b rnd).abnormalFlags) := by
  constructor
  · intro m
    rw [generateBloodTest_flag, generateBloodTest_referenceRanges, checkIsAbnormal_iff]
  · rw [generateBloodTest_isAbnormal]
    exact decide_eq_true_iff

/-- C7: two patients of the same gender, aged 70 and 60, differ in their
reference ranges only in hemoglobin (both bounds lower by exactly 0.5 at 70)
and the wbc max (lower by exactly 0.5, min unchanged); the other 11 metric
ranges coincide. -/
theorem elderly_range_adjustment (p₁ p₂ : Patient)
    (h₁ : p₁.age = 70) (h₂ : p₂.age = 60) (hg : p₁.gender = p₂.gender) :
    (getReferenceRanges p₁).hemoglobin.min = (getReferenceRanges p₂).hemoglobin.min - 1/2
    ∧ (getReferenceRanges p₁).hemoglobin.max = (getReferenceRanges p₂).hemoglobin.max - 1/2
    ∧ (getReferenceRanges p₁).wbc.max = (getReferenceRanges p₂).wbc.max - 1/2
    ∧ (getReferenceRanges p₁).wbc.min = (getReferenceRanges p₂).wbc.min
    ∧ ∀ m : Metric, m ≠ .hemoglobin → m ≠ .wbc →
        (getReferenceRanges p₁).get m = (getReferenceRanges p₂).get m := by
  unfold getReferenceRanges
  rw [h₁, h₂, hg]
  rw [if_pos (by norm_num), if_neg (by norm_num)]
  cases p₂.gender <;>
    refine ⟨rfl, rfl, rfl, rfl, ?_⟩ <;>
    · intro m hm₁ hm₂
      cases m <;> first | rfl | exact absurd rfl hm₁ | exact absurd rfl hm₂

/-- A closed instance of C7 with two concrete patients. -/
theorem elderly_range_adjustment_witness :
    let p₁ : Patient := ⟨"P-a", 70, .F, []⟩
    let p₂ : Patient := ⟨"P-b", 60, .F, []⟩
    (getReferenceRanges p₁).hemoglobin.min = (getReferenceRanges p₂).hemoglobin.min - 1/2
    ∧ (getReferenceRanges p₁).hemoglobin.max = (getReferenceRanges p₂).hemoglobin.max - 1/2
    ∧ (getReferenceRanges p₁).wbc.max = (getReferenceRanges p₂).wbc.max - 1/2
    ∧ (getReferenceRanges p₁).wbc.min = (getReferenceRanges p₂).wbc.min
    ∧ ∀ m : Metric, m ≠ .hemoglobin → m ≠ .wbc →
        (getReferenceRanges p₁).get m = (getReferenceRanges p₂).get m :=
  elderly_range_adjustment ⟨"P-a", 70, .F, []⟩ ⟨"P-b", 60, .F, []⟩ rfl rfl rfl

/-- C10: `determinePatientAbnormality` on an empty test list returns label
NORMAL with confidence exactly 1, for every configuration value and random
draw (in JS the ratio is `0/0 = NaN` and `NaN >= 0.3` is false; the second
gate is short-circuited by `false &&`). -/
theorem empty_tests_labelled_normal (abnormalProbability labelDraw : ℚ) :
    determinePatientAbnormality [] abnormalProbability labelDraw
      = ⟨.NORMAL, 1⟩ := by
  unfold determinePatientAbnormality avgConfidenceOf
  simp [abnormalTestsOf, show ¬((3:ℚ)/10 ≤ 0) by norm_num]

/-! ## Concrete fixtures used by witnesses and counterexamples -/

/-- A 40-year-old male patient. -/
def cPatient : Patient := ⟨"P-male40", 40, .M, []⟩

/-- Per-test draws all equal to 1/2. -/
def halfDraws : TestRandom :=
  ⟨1/2, 1/2, 1/2, 1/2, 1/2, 1/2, 1/2, 1/2, 1/2, 1/2, 1/2, 1/2, 1/2, 1/2⟩

/-- A seed map supplying only hemoglobin, with a 3-decimal value. -/
def cBaseHgb : PartialValues := { hemoglobin := some (1234/1000) }

/-- C5 (amended): a supplied non-zero seed value is used, but only after the
metric's final rounding (`formatNumber`, `Math.round` for platelets); a seed
equal to 0 is treated like an absent one (JS `||` falsiness) and the metric
is re-drawn; an unseeded metric's value is the draw over
`[range.min - padLo, range.max + padHi]`, rounded the same way. -/
theorem seed_used_after_rounding (p : Patient) (d : String) (b : PartialValues)
    (rnd : TestRandom) (m : Metric) :
    (∀ v : ℚ, b.get m = some v → v ≠ 0 →
      (generateBloodTest p d b rnd).value m = metricFmt m v)
    ∧ (b.get m = none →
      (generateBloodTest p d b rnd).value m
        = metricFmt m (randomInRange (rnd.get m)
            (((getReferenceRanges p).get m).min - padLo m)
            (((getReferenceRanges p).get m).max + padHi m)))
    ∧ (b.get m = some 0 →
      (generateBloodTest p d b rnd).value m
        = metricFmt m (randomInRange (rnd.get m)
            (((getReferenceRanges p).get m).min - padLo m)
            (((getReferenceRanges p).get m).max + padHi m))) := by
  refine ⟨?_, ?_, ?_⟩
  · intro v hv hv0
    rw [generateBloodTest_value, hv]
    simp [jsOr, hv0]
  · intro hv
    rw [generateBloodTest_value, hv]
    rfl
  · intro hv
    rw [generateBloodTest_value, hv]
    simp [jsOr]

/-- Witness for C5's amended theorem at a concrete input: a hemoglobin seed
of 1.234 is stored as `formatNumber 1.234`. -/
theorem seed_used_after_rounding_witness :
    cBaseHgb.get .hemoglobin = some (1234/1000)
    ∧ (1234/1000 : ℚ) ≠ 0
    ∧ (generateBloodTest cPatient "2025-01-01" cBaseHgb halfDraws).value .hemoglobin
        = metricFmt .hemoglobin (1234/1000) :=
  ⟨rfl, by norm_num,
    (seed_used_after_rounding cPatient "2025-01-01" cBaseHgb halfDraws .hemoglobin).1
      (1234/1000) rfl (by norm_num)⟩

/-- Counterexample to C5 as stated: the seed 1.234 is NOT used verbatim —
the stored hemoglobin value is its 2-decimal rounding 1.23. -/
theorem seed_not_verbatim_counterexample :
    (generateBloodTest cPatient "2025-01-01" cBaseHgb halfDraws).hemoglobin = 123/100
    ∧ (123/100 : ℚ) ≠ 1234/1000 := by
  constructor
  · rw [show (generateBloodTest cPatient "2025-01-01" cBaseHgb halfDraws).hemoglobin
        = (generateBloodTest cPatient "2025-01-01" cBaseHgb halfDraws).value .hemoglobin from rfl,
      generateBloodTest_value]
    rw [show cBaseHgb.get .hemoglobin = some (1234/1000) from rfl]
    rw [show jsOr (some (1234/1000)) (randomInRange (halfDraws.get .hemoglobin)
          (((getReferenceRanges cPatient).get .hemoglobin).min - padLo .hemoglobin)
          (((getReferenceRanges cPatient).get .hemoglobin).max + padHi .hemoglobin))
        = 1234/1000 by simp [jsOr]]
    show formatNumber (1234/1000) = 123/100
    unfold formatNumber
    norm_num
  · norm_num

/-! ## C8: `generateId` -/

theorem frac36Digits_zero (fuel : ℕ) : frac36Digits fuel 0 = [] := by
  cases fuel with
  | zero => rfl
  | succ n =>
    rw [frac36Digits]
    rw [if_pos rfl]

theorem frac36Digits_step (fuel : ℕ) (q : ℚ) (hq : q ≠ 0) (d : ℕ)
    (hd : ⌊q * 36⌋ = (d : ℤ)) :
    frac36Digits (fuel + 1) q = base36Char d :: frac36Digits fuel (q * 36 - d) := by
  rw [frac36Digits, if_neg hq, hd]
  simp

theorem base36Char_valid : ∀ d : ℕ, d < 36 → (base36Char d).isDigit ∨ (base36Char d).isLower := by
  decide

theorem frac36Digits_valid : ∀ (fuel : ℕ) (q : ℚ), 0 ≤ q → q < 1 →
    ∀ c ∈ frac36Digits fuel q, c.isDigit ∨ c.isLower := by
  intro fuel
  induction fuel with
  | zero => intro q _ _ c hc; simp [frac36Digits] at hc
  | succ n ih =>
    intro q h0 h1 c hc
    rw [frac36Digits] at hc
    by_cases hq : q = 0
    · rw [if_pos hq] at hc; simp at hc
    · rw [if_neg hq] at hc
      have h36 : (0:ℚ) ≤ q * 36 := by linarith
      have hfl0 : (0:ℤ) ≤ ⌊q * 36⌋ := Int.floor_nonneg.mpr h36
      have hcast : ((⌊q * 36⌋.toNat : ℤ) : ℚ) = ((⌊q * 36⌋ : ℤ) : ℚ) := by
        rw [Int.toNat_of_nonneg hfl0]
      rcases List.mem_cons.mp hc with hhd | htl
      · subst hhd
        refine base36Char_valid _ ?_
        have : ⌊q * 36⌋ < 36 := by
          have : q * 36 < 36 := by linarith
          exact Int.floor_lt.mpr (by push_cast; linarith)
        omega
      · refine ih (q * 36 - ⌊q * 36⌋.toNat) ?_ ?_ c htl
        · have := Int.floor_le (q * 36)
          push_cast at hcast ⊢
          rw [hcast]
          linarith
        · have := Int.lt_floor_add_one (q * 36)
          push_cast at hcast ⊢
          rw [hcast]
          linarith

/-- C8 (amended): `generateId(prefix, length)` returns
`prefix ++ "-" ++ s` where `s` consists of AT MOST `length` base-36
characters (digits or lowercase letters) — exactly `length` only when the
draw's base-36 expansion is long enough, fewer otherwise. -/
theorem generateId_shape (pre : String) (length : ℕ) (q : ℚ)
    (h0 : 0 ≤ q) (h1 : q < 1) :
    ∃ s : List Char,
      generateId pre length q = pre ++ "-" ++ String.mk s
      ∧ s.length ≤ length
      ∧ ∀ c ∈ s, c.isDigit ∨ c.isLower := by
  refine ⟨((numToString36 q).drop 2).take length, rfl, ?_, ?_⟩
  · rw [List.length_take]
    exact min_le_left _ _
  · intro c hc
    have hc' : c ∈ (numToString36 q).drop 2 := List.take_subset _ _ hc
    unfold numToString36 at hc'
    by_cases hq : q = 0
    · rw [if_pos hq] at hc'
      simp at hc'
    · rw [if_neg hq] at hc'
      exact frac36Digits_valid 64 q h0 h1 c hc'

/-- Witness for C8's amended theorem at the draw 1/2. -/
theorem generateId_shape_witness :
    (0 ≤ (1/2 : ℚ)) ∧ ((1/2 : ℚ) < 1) ∧
    ∃ s : List Char,
      generateId "P" 8 (1/2) = "P" ++ "-" ++ String.mk s
      ∧ s.length ≤ 8
      ∧ ∀ c ∈ s, c.isDigit ∨ c.isLower :=
  ⟨by norm_num, by norm_num, generateId_shape "P" 8 (1/2) (by norm_num) (by norm_num)⟩

/-- Counterexample to C8 as stated: for the draw 1/2 (whose base-36
expansion is the single digit `i`), `generateId("P", 8)` is `"P-i"` — only
1 random character, not 8. -/
theorem generateId_counterexample :
    generateId "P" 8 (1/2) = "P-i" ∧ ("P-i").length = 3 ∧ (3 : ℕ) ≠ 2 + 8 := by
  have estep : frac36Digits 64 (1/2) = ['i'] := by
    rw [show (64 : ℕ) = 63 + 1 from rfl,
      frac36Digits_step 63 (1/2) (by norm_num) 18 (by norm_num)]
    have hrem : ((1:ℚ)/2) * 36 - ((18 : ℕ) : ℚ) = 0 := by norm_num
    rw [hrem, frac36Digits_zero]
    rfl
  refine ⟨?_, rfl, by norm_num⟩
  unfold generateId numToString36
  rw [if_neg (by norm_num : ((1:ℚ)/2) ≠ 0), estep]
  rfl

/-! ## C2: `abnormalConfidence` -/

theorem generateBloodTest_abnormalConfidence (p : Patient) (d : String)
    (b : PartialValues) (rnd : TestRandom) :
    (generateBloodTest p d b rnd).abnormalFlags.abnormalConfidence
      = (if 0 < ((if (generateBloodTest p d b rnd).abnormalFlags.hemoglobin then 1 else 0)
            + (if (generateBloodTest p d b rnd).abnormalFlags.wbc then 1 else 0)
            + (if (generateBloodTest p d b rnd).abnormalFlags.platelets then 1 else 0)
            + (if (generateBloodTest p d b rnd).abnormalFlags.hematocrit then 1 else 0) : ℕ)
         then formatNumber
           (((if (generateBloodTest p d b rnd).abnormalFlags.hemoglobin
               then calculateAbnormalConfidence (generateBloodTest p d b rnd).hemoglobin
                 (getReferenceRanges p).hemoglobin else 0)
             + (if (generateBloodTest p d b rnd).abnormalFlags.wbc
               then calculateAbnormalConfidence (generateBloodTest p d b rnd).wbc
                 (getReferenceRanges p).wbc else 0)
             + (if (generateBloodTest p d b rnd).abnormalFlags.platelets
               then calculateAbnormalConfidence (generateBloodTest p d b rnd).platelets
                 (getReferenceRanges p).platelets else 0)
             + (if (generateBloodTest p d b rnd).abnormalFlags.hematocrit
               then calculateAbnormalConfidence (generateBloodTest p d b rnd).hematocrit
                 (getReferenceRanges p).hematocrit else 0))
            / (((if (generateBloodTest p d b rnd).abnormalFlags.hemoglobin then 1 else 0)
            + (if (generateBloodTest p d b rnd).abnormalFlags.wbc then 1 else 0)
            + (if (generateBloodTest p d b rnd).abnormalFlags.platelets then 1 else 0)
            + (if (generateBloodTest p d b rnd).abnormalFlags.hematocrit then 1 else 0) : ℕ) : ℚ))
         else 0) := rfl

/-- C2: `abnormalConfidence` is computed only from the hemoglobin, wbc,
platelets and hematocrit flags — it is 0 whenever none of those four is
flagged (even if the test is abnormal in other metrics), and otherwise it is
the 2-decimal rounding of the average, over exactly the flagged ones of the
four, of `min(0.5 + distanceFromRange, 1)`. -/
theorem abnormalConfidence_from_four_metrics (p : Patient) (d : String)
    (b : PartialValues) (rnd : TestRandom) :
    ((∀ m ∈ confMetrics, (generateBloodTest p d b rnd).abnormalFlags.metricFlag m = false) →
      (generateBloodTest p d b rnd).abnormalFlags.abnormalConfidence = 0)
    ∧ (confMetrics.filter (fun m => (generateBloodTest p d b rnd).abnormalFlags.metricFlag m) ≠ [] →
      (generateBloodTest p d b rnd).abnormalFlags.abnormalConfidence
        = formatNumber
            ((((confMetrics.filter (fun m => (generateBloodTest p d b rnd).abnormalFlags.metricFlag m)).map
                (fun m => min (1/2 + distanceFromRange ((generateBloodTest p d b rnd).value m)
                  (((generateBloodTest p d b rnd).referenceRanges).get m)) 1)).sum)
              / ((confMetrics.filter (fun m => (generateBloodTest p d b rnd).abnormalFlags.metricFlag m)).length))) := by
  have hH : (generateBloodTest p d b rnd).abnormalFlags.hemoglobin = true →
      calculateAbnormalConfidence (generateBloodTest p d b rnd).hemoglobin (getReferenceRanges p).hemoglobin
        = min (1/2 + distanceFromRange ((generateBloodTest p d b rnd).value .hemoglobin)
            (((generateBloodTest p d b rnd).referenceRanges).get .hemoglobin)) 1 := by
    intro h
    have hck : checkIsAbnormal ((generateBloodTest p d b rnd).value .hemoglobin)
        ((getReferenceRanges p).get .hemoglobin) = true := by
      rw [← generateBloodTest_flag]
      exact h
    exact calculateAbnormalConfidence_of_abnormal hck
  have hW : (generateBloodTest p d b rnd).abnormalFlags.wbc = true →
      calculateAbnormalConfidence (generateBloodTest p d b rnd).wbc (getReferenceRanges p).wbc
        = min (1/2 + distanceFromRange ((generateBloodTest p d b rnd).value .wbc)
            (((generateBloodTest p d b rnd).referenceRanges).get .wbc)) 1 := by
    intro h
    have hck : checkIsAbnormal ((generateBloodTest p d b rnd).value .wbc)
        ((getReferenceRanges p).get .wbc) = true := by
      rw [← generateBloodTest_flag]
      exact h
    exact calculateAbnormalConfidence_of_abnormal hck
  have hP : (generateBloodTest p d b rnd).abnormalFlags.platelets = true →
      calculateAbnormalConfidence (generateBloodTest p d b rnd).platelets (getReferenceRanges p).platelets
        = min (1/2 + distanceFromRange ((generateBloodTest p d b rnd).value .platelets)
            (((generateBloodTest p d b rnd).referenceRanges).get .platelets)) 1 := by
    intro h
    have hck : checkIsAbnormal ((generateBloodTest p d b rnd).value .platelets)
        ((getReferenceRanges p).get .platelets) = true := by
      rw [← generateBloodTest_flag]
      exact h
    exact calculateAbnormalConfidence_of_abnormal hck
  have hT : (generateBloodTest p d b rnd).abnormalFlags.hematocrit = true →
      calculateAbnormalConfidence (generateBloodTest p d b rnd).hematocrit (getReferenceRanges p).hematocrit
        = min (1/2 + distanceFromRange ((generateBloodTest p d b rnd).value .hematocrit)
            (((generateBloodTest p d b rnd).referenceRanges).get .hematocrit)) 1 := by
    intro h
    have hck : checkIsAbnormal ((generateBloodTest p d b rnd).value .hematocrit)
        ((getReferenceRanges p).get .hematocrit) = true := by
      rw [← generateBloodTest_flag]
      exact h
    exact calculateAbnormalConfidence_of_abnormal hck
  constructor
  · intro hall
    have h1 := hall .hemoglobin (by simp [confMetrics])
    have h2 := hall .wbc (by simp [confMetrics])
    have h3 := hall .platelets (by simp [confMetrics])
    have h4 := hall .hematocrit (by simp [confMetrics])
    simp only [AbnormalFlags.metricFlag] at h1 h2 h3 h4
    rw [generateBloodTest_abnormalConfidence]
    simp [h1, h2, h3, h4]
  · intro hne
    rw [generateBloodTest_abnormalConfidence]
    cases h1 : (generateBloodTest p d b rnd).abnormalFlags.hemoglobin <;>
      cases h2 : (generateBloodTest p d b rnd).abnormalFlags.wbc <;>
      cases h3 : (generateBloodTest p d b rnd).abnormalFlags.platelets <;>
      cases h4 : (generateBloodTest p d b rnd).abnormalFlags.hematocrit
    · exact absurd (by simp [confMetrics, AbnormalFlags.metricFlag, h1, h2, h3, h4]) hne
    all_goals
      simp [confMetrics, AbnormalFlags.metricFlag, h1, h2, h3, h4,
        hH, hW, hP, hT]
    all_goals congr 1
    all_goals ring

/-- Seed map for the spec's regression scenario: all 13 metrics seeded, with
neutrophils, lymphocytes and monocytes outside their ranges and the other ten
(including all four confidence metrics) inside. -/
def cBaseNeutro : PartialValues :=
  { hemoglobin := some 15, wbc := some 7, rbc := some 5, platelets := some 300,
    hematocrit := some 45, mcv := some 90, mch := some 30, mchc := some 34,
    neutrophils := some 70, lymphocytes := some 45, monocytes := some 9,
    eosinophils := some 2, basophils := some (4/5) }

/-- A seeded metric's flag is `checkIsAbnormal` of the rounded seed. -/
theorem metricFlag_of_seed (p : Patient) (d : String) (b : PartialValues)
    (rnd : TestRandom) (m : Metric) (v : ℚ) (hv : b.get m = some v) (h0 : v ≠ 0) :
    (generateBloodTest p d b rnd).abnormalFlags.metricFlag m
      = checkIsAbnormal (metricFmt m v) ((getReferenceRanges p).get m) := by
  rw [generateBloodTest_flag, generateBloodTest_value, hv]
  simp [jsOr, h0]

/-- Witness for C2: a test abnormal only in neutrophils, lymphocytes and
monocytes (3 metrics flagged, all outside the four confidence metrics) has
`abnormalConfidence = 0` while `isAbnormal = true`. -/
theorem abnormalConfidence_from_four_metrics_witness :
    (∀ m ∈ confMetrics,
      (generateBloodTest cPatient "2025-01-01" cBaseNeutro halfDraws).abnormalFlags.metricFlag m = false)
    ∧ (generateBloodTest cPatient "2025-01-01" cBaseNeutro halfDraws).abnormalFlags.abnormalConfidence = 0
    ∧ (generateBloodTest cPatient "2025-01-01" cBaseNeutro halfDraws).abnormalFlags.isAbnormal = true := by
  have f_hemoglobin : (generateBloodTest cPatient "2025-01-01" cBaseNeutro halfDraws).abnormalFlags.metricFlag .hemoglobin = false := by
    rw [metricFlag_of_seed cPatient "2025-01-01" cBaseNeutro halfDraws .hemoglobin (15) rfl (by norm_num)]
    norm_num [metricFmt, formatNumber, jsRound, checkIsAbnormal, getReferenceRanges,
      cPatient, maleReferenceRanges, BloodTestReferenceRanges.get]
  have f_wbc : (generateBloodTest cPatient "2025-01-01" cBaseNeutro halfDraws).abnormalFlags.metricFlag .wbc = false := by
    rw [metricFlag_of_seed cPatient "2025-01-01" cBaseNeutro halfDraws .wbc (7) rfl (by norm_num)]
    norm_num [metricFmt, formatNumber, jsRound, checkIsAbnormal, getReferenceRanges,
      cPatient, maleReferenceRanges, BloodTestReferenceRanges.get]
  have f_rbc : (generateBloodTest cPatient "2025-01-01" cBaseNeutro halfDraws).abnormalFlags.metricFlag .rbc = false := by
    rw [metricFlag_of_seed cPatient "2025-01-01" cBaseNeutro halfDraws .rbc (5) rfl (by norm_num)]
    norm_num [metricFmt, formatNumber, jsRound, checkIsAbnormal, getReferenceRanges,
      cPatient, maleReferenceRanges, BloodTestReferenceRanges.get]
  have f_platelets : (generateBloodTest cPatient "2025-01-01" cBaseNeutro halfDraws).abnormalFlags.metricFlag .platelets = false := by
    rw [metricFlag_of_seed cPatient "2025-01-01" cBaseNeutro halfDraws .platelets (300) rfl (by norm_num)]
    norm_num [metricFmt, formatNumber, jsRound, checkIsAbnormal, getReferenceRanges,
      cPatient, maleReferenceRanges, BloodTestReferenceRanges.get]
  have f_hematocrit : (generateBloodTest cPatient "2025-01-01" cBaseNeutro halfDraws).abnormalFlags.metricFlag .hematocrit = false := by
    rw [metricFlag_of_seed cPatient "2025-01-01" cBaseNeutro halfDraws .hematocrit (45) rfl (by norm_num)]
    norm_num [metricFmt, formatNumber, jsRound, checkIsAbnormal, getReferenceRanges,
      cPatient, maleReferenceRanges, BloodTestReferenceRanges.get]
  have f_mcv : (generateBloodTest cPatient "2025-01-01" cBaseNeutro halfDraws).abnormalFlags.metricFlag .mcv = false := by
    rw [metricFlag_of_seed cPatient "2025-01-01" cBaseNeutro halfDraws .mcv (90) rfl (by norm_num)]
    norm_num [metricFmt, formatNumber, jsRound, checkIsAbnormal, getReferenceRanges,
      cPatient, maleReferenceRanges, BloodTestReferenceRanges.get]
  have f_mch : (generateBloodTest cPatient "2025-01-01" cBaseNeutro halfDraws).abnormalFlags.metricFlag .mch = false := by
    rw [metricFlag_of_seed cPatient "2025-01-01" cBaseNeutro halfDraws .mch (30) rfl (by norm_num)]
    norm_num [metricFmt, formatNumber, jsRound, checkIsAbnormal, getReferenceRanges,
      cPatient, maleReferenceRanges, BloodTestReferenceRanges.get]
  have f_mchc : (generateBloodTest cPatient "2025-01-01" cBaseNeutro halfDraws).abnormalFlags.metricFlag .mchc = false := by
    rw [metricFlag_of_seed cPatient "2025-01-01" cBaseNeutro halfDraws .mchc (34) rfl (by norm_num)]
    norm_num [metricFmt, formatNumber, jsRound, checkIsAbnormal, getReferenceRanges,
      cPatient, maleReferenceRanges, BloodTestReferenceRanges.get]
  have f_neutrophils : (generateBloodTest cPatient "2025-01-01" cBaseNeutro halfDraws).abnormalFlags.metricFlag .neutrophils = true := by
    rw [metricFlag_of_seed cPatient "2025-01-01" cBaseNeutro halfDraws .neutrophils (70) rfl (by norm_num)]
    norm_num [metricFmt, formatNumber, jsRound, checkIsAbnormal, getReferenceRanges,
      cPatient, maleReferenceRanges, BloodTestReferenceRanges.get]
  have f_lymphocytes : (generateBloodTest cPatient "2025-01-01" cBaseNeutro halfDraws).abnormalFlags.metricFlag .lymphocytes = true := by
    rw [metricFlag_of_seed cPatient "2025-01-01" cBaseNeutro halfDraws .lymphocytes (45) rfl (by norm_num)]
    norm_num [metricFmt, formatNumber, jsRound, checkIsAbnormal, getReferenceRanges,
      cPatient, maleReferenceRanges, BloodTestReferenceRanges.get]
  have f_monocytes : (generateBloodTest cPatient "2025-01-01" cBaseNeutro halfDraws).abnormalFlags.metricFlag .monocytes = true := by
    rw [metricFlag_of_seed cPatient "2025-01-01" cBaseNeutro halfDraws .monocytes (9) rfl (by norm_num)]
    norm_num [metricFmt, formatNumber, jsRound, checkIsAbnormal, getReferenceRanges,
      cPatient, maleReferenceRanges, BloodTestReferenceRanges.get]
  have f_eosinophils : (generateBloodTest cPatient "2025-01-01" cBaseNeutro halfDraws).abnormalFlags.metricFlag .eosinophils = false := by
    rw [metricFlag_of_seed cPatient "2025-01-01" cBaseNeutro halfDraws .eosinophils (2) rfl (by norm_num)]
    norm_num [metricFmt, formatNumber, jsRound, checkIsAbnormal, getReferenceRanges,
      cPatient, maleReferenceRanges, BloodTestReferenceRanges.get]
  have f_basophils : (generateBloodTest cPatient "2025-01-01" cBaseNeutro halfDraws).abnormalFlags.metricFlag .basophils = false := by
    rw [metricFlag_of_seed cPatient "2025-01-01" cBaseNeutro halfDraws .basophils (4/5) rfl (by norm_num)]
    norm_num [metricFmt, formatNumber, jsRound, checkIsAbnormal, getReferenceRanges,
      cPatient, maleReferenceRanges, BloodTestReferenceRanges.get]
  have h_all : ∀ m ∈ confMetrics,
      (generateBloodTest cPatient "2025-01-01" cBaseNeutro halfDraws).abnormalFlags.metricFlag m = false := by
    intro m hm
    fin_cases hm
    · exact f_hemoglobin
    · exact f_wbc
    · exact f_platelets
    · exact f_hematocrit
  refine ⟨h_all, (abnormalConfidence_from_four_metrics cPatient "2025-01-01" cBaseNeutro halfDraws).1 h_all, ?_⟩
  rw [generateBloodTest_isAbnormal]
  simp only [abnormalFlagCount, allMetrics, List.map]
  simp only [f_hemoglobin, f_wbc, f_rbc, f_platelets, f_hematocrit, f_mcv, f_mch, f_mchc,
    f_neutrophils, f_lymphocytes, f_monocytes, f_eosinophils, f_basophils]
  rfl

/-! ## C6: patient-level confidence -/

theorem formatNumber_zero : formatNumber 0 = 0 := by
  unfold formatNumber
  norm_num

theorem formatNumber_one : formatNumber 1 = 1 := by
  unfold formatNumber
  norm_num

theorem foldl_add_conf (l : List BloodTest) (a : ℚ) :
    l.foldl (fun sum t => sum + t.abnormalFlags.abnormalConfidence) a
      = a + (l.map (fun t => t.abnormalFlags.abnormalConfidence)).sum := by
  induction l generalizing a with
  | nil => simp
  | cons t ts ih => simp [ih, add_assoc]

theorem avgConfidenceOf_mem_unit (tests : List BloodTest)
    (hconf : ∀ t ∈ tests, 0 ≤ t.abnormalFlags.abnormalConfidence
      ∧ t.abnormalFlags.abnormalConfidence ≤ 1) :
    0 ≤ avgConfidenceOf tests ∧ avgConfidenceOf tests ≤ 1 := by
  unfold avgConfidenceOf
  by_cases h : 0 < (abnormalTestsOf tests).length
  · rw [if_pos h]
    have hsub : ∀ t ∈ abnormalTestsOf tests, 0 ≤ t.abnormalFlags.abnormalConfidence
        ∧ t.abnormalFlags.abnormalConfidence ≤ 1 := by
      intro t ht
      exact hconf t (List.mem_of_mem_filter ht)
    rw [foldl_add_conf, zero_add]
    have h0 : 0 ≤ ((abnormalTestsOf tests).map (fun t => t.abnormalFlags.abnormalConfidence)).sum := by
      refine List.sum_nonneg ?_
      intro x hx
      obtain ⟨t, ht, rfl⟩ := List.mem_map.mp hx
      exact (hsub t ht).1
    have h1 : ((abnormalTestsOf tests).map (fun t => t.abnormalFlags.abnormalConfidence)).sum
        ≤ ((abnormalTestsOf tests).length : ℚ) := by
      have := List.sum_le_card_nsmul
        ((abnormalTestsOf tests).map (fun t => t.abnormalFlags.abnormalConfidence)) 1
        (by
          intro x hx
          obtain ⟨t, ht, rfl⟩ := List.mem_map.mp hx
          exact (hsub t ht).2)
      simpa using this
    have hlen : (0:ℚ) < ((abnormalTestsOf tests).length : ℚ) := by exact_mod_cast h
    constructor
    · rw [← formatNumber_zero]
      exact formatNumber_mono (div_nonneg h0 (le_of_lt hlen))
    · rw [← formatNumber_one]
      exact formatNumber_mono ((div_le_one hlen).mpr h1)
  · rw [if_neg h]
    norm_num

/-- C6: for a non-empty test list whose per-test `abnormalConfidence` values
lie in [0,1], `determinePatientAbnormality` returns a confidence in [0,1]:
`avgConfidence` when the label is ABNORMAL, `1 - avgConfidence` when it is
NORMAL. -/
theorem patient_confidence_unit_and_branches (tests : List BloodTest)
    (abnormalProbability labelDraw : ℚ) (hne : tests ≠ [])
    (hconf : ∀ t ∈ tests, 0 ≤ t.abnormalFlags.abnormalConfidence
      ∧ t.abnormalFlags.abnormalConfidence ≤ 1) :
    (0 ≤ (determinePatientAbnormality tests abnormalProbability labelDraw).confidence
      ∧ (determinePatientAbnormality tests abnormalProbability labelDraw).confidence ≤ 1)
    ∧ ((determinePatientAbnormality tests abnormalProbability labelDraw).label = .ABNORMAL →
        (determinePatientAbnormality tests abnormalProbability labelDraw).confidence
          = avgConfidenceOf tests)
    ∧ ((determinePatientAbnormality tests abnormalProbability labelDraw).label = .NORMAL →
        (determinePatientAbnormality tests abnormalProbability labelDraw).confidence
          = 1 - avgConfidenceOf tests) := by
  obtain ⟨h0, h1⟩ := avgConfidenceOf_mem_unit tests hconf
  unfold determinePatientAbnormality
  cases hb : (decide (3/10 ≤ ((abnormalTestsOf tests).length : ℚ) / (tests.length : ℚ))
      || tests.any (fun t => 4/5 < t.abnormalFlags.abnormalConfidence))
      && randomBoolean labelDraw abnormalProbability <;>
    · simp only [hb]
      refine ⟨⟨?_, ?_⟩, ?_, ?_⟩ <;> simp <;> first | linarith | intro h | rfl

/-- The regression-scenario test has `abnormalConfidence = 0` (none of the
four confidence metrics is flagged). -/
theorem cNeutro_conf_zero :
    (generateBloodTest cPatient "2025-01-01" cBaseNeutro halfDraws).abnormalFlags.abnormalConfidence = 0 := by
  have f_hemoglobin : (generateBloodTest cPatient "2025-01-01" cBaseNeutro halfDraws).abnormalFlags.hemoglobin = false := by
    show (generateBloodTest cPatient "2025-01-01" cBaseNeutro halfDraws).abnormalFlags.metricFlag .hemoglobin = false
    rw [metricFlag_of_seed cPatient "2025-01-01" cBaseNeutro halfDraws .hemoglobin (15) rfl (by norm_num)]
    norm_num [metricFmt, formatNumber, jsRound, checkIsAbnormal, getReferenceRanges,
      cPatient, maleReferenceRanges, BloodTestReferenceRanges.get]
  have f_wbc : (generateBloodTest cPatient "2025-01-01" cBaseNeutro halfDraws).abnormalFlags.wbc = false := by
    show (generateBloodTest cPatient "2025-01-01" cBaseNeutro halfDraws).abnormalFlags.metricFlag .wbc = false
    rw [metricFlag_of_seed cPatient "2025-01-01" cBaseNeutro halfDraws .wbc (7) rfl (by norm_num)]
    norm_num [metricFmt, formatNumber, jsRound, checkIsAbnormal, getReferenceRanges,
      cPatient, maleReferenceRanges, BloodTestReferenceRanges.get]
  have f_platelets : (generateBloodTest cPatient "2025-01-01" cBaseNeutro halfDraws).abnormalFlags.platelets = false := by
    show (generateBloodTest cPatient "2025-01-01" cBaseNeutro halfDraws).abnormalFlags.metricFlag .platelets = false
    rw [metricFlag_of_seed cPatient "2025-01-01" cBaseNeutro halfDraws .platelets (300) rfl (by norm_num)]
    norm_num [metricFmt, formatNumber, jsRound, checkIsAbnormal, getReferenceRanges,
      cPatient, maleReferenceRanges, BloodTestReferenceRanges.get]
  have f_hematocrit : (generateBloodTest cPatient "2025-01-01" cBaseNeutro halfDraws).abnormalFlags.hematocrit = false := by
    show (generateBloodTest cPatient "2025-01-01" cBaseNeutro halfDraws).abnormalFlags.metricFlag .hematocrit = false
    rw [metricFlag_of_seed cPatient "2025-01-01" cBaseNeutro halfDraws .hematocrit (45) rfl (by norm_num)]
    norm_num [metricFmt, formatNumber, jsRound, checkIsAbnormal, getReferenceRanges,
      cPatient, maleReferenceRanges, BloodTestReferenceRanges.get]
  rw [generateBloodTest_abnormalConfidence]
  simp [f_hemoglobin, f_wbc, f_platelets, f_hematocrit]

/-- Witness for C6 on the singleton list containing the regression test. -/
theorem patient_confidence_unit_witness :
    ([generateBloodTest cPatient "2025-01-01" cBaseNeutro halfDraws] ≠ ([] : List BloodTest))
    ∧ (∀ t ∈ [generateBloodTest cPatient "2025-01-01" cBaseNeutro halfDraws],
        0 ≤ t.abnormalFlags.abnormalConfidence ∧ t.abnormalFlags.abnormalConfidence ≤ 1)
    ∧ (0 ≤ (determinePatientAbnormality [generateBloodTest cPatient "2025-01-01" cBaseNeutro halfDraws] (3/10) (1/2)).confidence
      ∧ (determinePatientAbnormality [generateBloodTest cPatient "2025-01-01" cBaseNeutro halfDraws] (3/10) (1/2)).confidence ≤ 1) := by
  have hconf : ∀ t ∈ [generateBloodTest cPatient "2025-01-01" cBaseNeutro halfDraws],
      0 ≤ t.abnormalFlags.abnormalConfidence ∧ t.abnormalFlags.abnormalConfidence ≤ 1 := by
    intro t ht
    rw [List.mem_singleton] at ht
    subst ht
    rw [cNeutro_conf_zero]
    norm_num
  exact ⟨by simp, hconf,
    (patient_confidence_unit_and_branches
      [generateBloodTest cPatient "2025-01-01" cBaseNeutro halfDraws]
      (3/10) (1/2) (by simp) hconf).1⟩

/-! ## Series invariants -/

/-- Lower bound maintained for every value a series can store in a metric:
platelets values are `Math.round` images `≥ 1`, all other metrics are
2-decimal values `≥ 0.01`. -/
def metricFloor : Metric → ℚ
  | .platelets => 1
  | _ => 1/100

/-- Invariant of a stored metric value in a series: it is a fixed point of
the metric's final rounding, a fixed point of `formatNumber`, and at least
`metricFloor`. -/
def MetricWF (m : Metric) (v : ℚ) : Prop :=
  metricFmt m v = v ∧ formatNumber v = v ∧ metricFloor m ≤ v

/-- All 13 per-metric draws of a test lie in `[0, 1)`. -/
def TestDrawsInUnit (t : TestRandom) : Prop :=
  ∀ m : Metric, 0 ≤ t.get m ∧ t.get m < 1

/-- Arithmetic facts about a metric's reference range that the series
theorems rely on; they hold for every range `getReferenceRanges` can
produce. -/
def RangeOK (m : Metric) (R : Range) : Prop :=
  formatNumber R.min = R.min
  ∧ formatNumber R.max = R.max
  ∧ 0 < R.min
  ∧ R.min ≤ R.max
  ∧ R.min - padLo m ≤ R.max + padHi m
  ∧ formatNumber (R.max * (11/10)) = R.max * (11/10)
  ∧ metricFmt m (R.max * (11/10)) = R.max * (11/10)
  ∧ formatNumber (R.min * (9/10)) = R.min * (9/10)
  ∧ metricFmt m (R.min * (9/10)) = R.min * (9/10)
  ∧ R.max < R.max * (11/10)
  ∧ R.min * (9/10) < R.min
  ∧ metricFloor m ≤ R.min * (9/10)
  ∧ metricFloor m ≤ metricFmt m (R.min - padLo m)

theorem ranges_ok_male (m : Metric) : RangeOK m (maleReferenceRanges.get m) := by
  cases m <;>
    · refine ⟨?_, ?_, ?_, ?_, ?_, ?_, ?_, ?_, ?_, ?_, ?_, ?_, ?_⟩ <;>
        norm_num [formatNumber, jsRound, metricFmt, metricFloor, padLo, padHi,
          BloodTestReferenceRanges.get, maleReferenceRanges, femaleReferenceRanges]

theorem ranges_ok_female (m : Metric) : RangeOK m (femaleReferenceRanges.get m) := by
  cases m <;>
    · refine ⟨?_, ?_, ?_, ?_, ?_, ?_, ?_, ?_, ?_, ?_, ?_, ?_, ?_⟩ <;>
        norm_num [formatNumber, jsRound, metricFmt, metricFloor, padLo, padHi,
          BloodTestReferenceRanges.get, maleReferenceRanges, femaleReferenceRanges]

theorem ranges_ok_male_elderly (m : Metric) :
    RangeOK m (({ maleReferenceRanges with
      hemoglobin := ⟨maleReferenceRanges.hemoglobin.min - 1/2, maleReferenceRanges.hemoglobin.max - 1/2⟩
      wbc := ⟨maleReferenceRanges.wbc.min, maleReferenceRanges.wbc.max - 1/2⟩ } :
        BloodTestReferenceRanges).get m) := by
  cases m <;>
    · refine ⟨?_, ?_, ?_, ?_, ?_, ?_, ?_, ?_, ?_, ?_, ?_, ?_, ?_⟩ <;>
        norm_num [formatNumber, jsRound, metricFmt, metricFloor, padLo, padHi,
          BloodTestReferenceRanges.get, maleReferenceRanges, femaleReferenceRanges]

theorem ranges_ok_female_elderly (m : Metric) :
    RangeOK m (({ femaleReferenceRanges with
      hemoglobin := ⟨femaleReferenceRanges.hemoglobin.min - 1/2, femaleReferenceRanges.hemoglobin.max - 1/2⟩
      wbc := ⟨femaleReferenceRanges.wbc.min, femaleReferenceRanges.wbc.max - 1/2⟩ } :
        BloodTestReferenceRanges).get m) := by
  cases m <;>
    · refine ⟨?_, ?_, ?_, ?_, ?_, ?_, ?_, ?_, ?_, ?_, ?_, ?_, ?_⟩ <;>
        norm_num [formatNumber, jsRound, metricFmt, metricFloor, padLo, padHi,
          BloodTestReferenceRanges.get, maleReferenceRanges, femaleReferenceRanges]

theorem ranges_ok (p : Patient) (m : Metric) :
    RangeOK m ((getReferenceRanges p).get m) := by
  unfold getReferenceRanges
  cases hg : p.gender <;> by_cases ha : 65 < p.age
  · rw [if_pos ha]
    exact ranges_ok_male_elderly m
  · rw [if_neg ha]
    exact ranges_ok_male m
  · rw [if_pos ha]
    exact ranges_ok_female_elderly m
  · rw [if_neg ha]
    exact ranges_ok_female m

theorem PartialValues.get_empty (m : Metric) : (({} : PartialValues)).get m = none := by
  cases m <;> rfl

theorem randomInRange_ge {r lo hi : ℚ} (hr : 0 ≤ r) (h : lo ≤ hi) :
    lo ≤ randomInRange r lo hi := by
  unfold randomInRange
  nlinarith

theorem wf_of_fmt_ge (m : Metric) {x : ℚ} (hx : metricFloor m ≤ metricFmt m x) :
    MetricWF m (metricFmt m x) :=
  ⟨metricFmt_idem m x, formatNumber_metricFmt m x, hx⟩

theorem fresh_value_wf (p : Patient) (m : Metric) {r : ℚ} (hr : 0 ≤ r) :
    MetricWF m (metricFmt m (randomInRange r
      (((getReferenceRanges p).get m).min - padLo m)
      (((getReferenceRanges p).get m).max + padHi m))) := by
  obtain ⟨-, -, -, -, h5, -, -, -, -, -, -, -, h13⟩ := ranges_ok p m
  exact wf_of_fmt_ge m (le_trans h13 (metricFmt_mono m (randomInRange_ge hr h5)))

theorem metricFloor_pos (m : Metric) : 0 < metricFloor m := by
  cases m <;> norm_num [metricFloor]

theorem low_floor_fact_fmt {x : ℚ} (hx : 17/2000 ≤ x) :
    1/100 ≤ formatNumber (formatNumber x) ∧ formatNumber x ≠ 0 := by
  have h1 : formatNumber (17/2000) = 1/100 := by
    unfold formatNumber
    norm_num
  have h2 : (1:ℚ)/100 ≤ formatNumber x := h1 ▸ formatNumber_mono hx
  rw [formatNumber_idem]
  exact ⟨h2, by linarith⟩

theorem low_floor_fact_platelets {x : ℚ} (hx : 17/20 ≤ x) :
    1 ≤ jsRound (formatNumber x) ∧ formatNumber x ≠ 0 := by
  have h1 : formatNumber (17/20) = 17/20 := by
    unfold formatNumber
    norm_num
  have h2 : (17:ℚ)/20 ≤ formatNumber x := h1 ▸ formatNumber_mono hx
  have h3 : jsRound (17/20) = 1 := by
    unfold jsRound
    norm_num
  exact ⟨h3 ▸ jsRound_mono h2, by linarith⟩

theorem low_floor_fact (m : Metric) {x : ℚ} (hx : 17/20 * metricFloor m ≤ x) :
    metricFloor m ≤ metricFmt m (formatNumber x) ∧ formatNumber x ≠ 0 := by
  cases m <;>
    simp only [metricFloor, metricFmt] at hx ⊢ <;>
    first
      | exact low_floor_fact_fmt (by linarith)
      | exact low_floor_fact_platelets (by linarith)

/-! ## Unfolding the series recursion -/

theorem seriesTest_zero (p : Patient) (count : ℕ) (aprob : ℚ) (rnd : SeriesRandom) :
    seriesTest p count aprob rnd 0
      = generateBloodTest p ((sortedDates count rnd).getD 0 "") {} (rnd.testRnds 0) := rfl

theorem seriesTest_succ (p : Patient) (count : ℕ) (aprob : ℚ) (rnd : SeriesRandom) (i : ℕ) :
    seriesTest p count aprob rnd (i + 1)
      = generateBloodTest p ((sortedDates count rnd).getD (i + 1) "")
          (match abnormalMetric aprob rnd with
            | some m => (seriesTest p count aprob rnd i).toPartialValues.set m
                (formatNumber (trendValue ((getReferenceRanges p).get m)
                  (randomBoolean (rnd.dirDraws (i + 1)) (1/2)) count (i + 1)
                  ((seriesTest p count aprob rnd i).value m)))
            | none => (seriesTest p count aprob rnd i).toPartialValues)
          (rnd.testRnds (i + 1)) := rfl

theorem seriesTest_succ_value_target (p : Patient) (count : ℕ) (aprob : ℚ)
    (rnd : SeriesRandom) (m : Metric) (hm : abnormalMetric aprob rnd = some m) (i : ℕ) :
    (seriesTest p count aprob rnd (i + 1)).value m
      = metricFmt m (jsOr
          (some (formatNumber (trendValue ((getReferenceRanges p).get m)
            (randomBoolean (rnd.dirDraws (i + 1)) (1/2)) count (i + 1)
            ((seriesTest p count aprob rnd i).value m))))
          (randomInRange ((rnd.testRnds (i + 1)).get m)
            (((getReferenceRanges p).get m).min - padLo m)
            (((getReferenceRanges p).get m).max + padHi m))) := by
  rw [seriesTest_succ, hm, generateBloodTest_value]
  rw [PartialValues.get_set_self]

theorem seriesTest_succ_value_nontrend (p : Patient) (count : ℕ) (aprob : ℚ)
    (rnd : SeriesRandom) (hnone : abnormalMetric aprob rnd = none) (i : ℕ) (m : Metric) :
    (seriesTest p count aprob rnd (i + 1)).value m
      = metricFmt m (jsOr (some ((seriesTest p count aprob rnd i).value m))
          (randomInRange ((rnd.testRnds (i + 1)).get m)
            (((getReferenceRanges p).get m).min - padLo m)
            (((getReferenceRanges p).get m).max + padHi m))) := by
  rw [seriesTest_succ, hnone, generateBloodTest_value]
  rw [PartialValues.get_toPartialValues]

theorem seriesTest_zero_value (p : Patient) (count : ℕ) (aprob : ℚ)
    (rnd : SeriesRandom) (m : Metric) :
    (seriesTest p count aprob rnd 0).value m
      = metricFmt m (randomInRange ((rnd.testRnds 0).get m)
          (((getReferenceRanges p).get m).min - padLo m)
          (((getReferenceRanges p).get m).max + padHi m)) := by
  rw [seriesTest_zero, generateBloodTest_value, PartialValues.get_empty]
  rfl

theorem seriesTest_flag (p : Patient) (count : ℕ) (aprob : ℚ) (rnd : SeriesRandom)
    (i : ℕ) (m : Metric) :
    (seriesTest p count aprob rnd i).abnormalFlags.metricFlag m
      = checkIsAbnormal ((seriesTest p count aprob rnd i).value m)
          ((getReferenceRanges p).get m) := by
  cases i with
  | zero => exact generateBloodTest_flag p _ _ _ m
  | succ j => exact generateBloodTest_flag p _ _ _ m

theorem generateBloodTestSeries_getElem (p : Patient) (count : ℕ) (aprob : ℚ)
    (rnd : SeriesRandom) (i : ℕ) :
    (generateBloodTestSeries p count aprob rnd)[i]?
      = if i < count then some (seriesTest p count aprob rnd i) else none := by
  unfold generateBloodTestSeries
  simp only [List.getElem?_map, List.getElem?_range]
  split
  · next h => simp [List.getElem?_range, h]
  · next h =>
      simp [List.getElem?_range, h]
      exact le_of_not_lt h

/-! ## Trend arithmetic -/

theorem trendFactor_nonneg (i : ℕ) : 0 ≤ trendFactor i := by
  unfold trendFactor
  have h : (0:ℚ) ≤ min (i:ℚ) 3 := le_min (by positivity) (by norm_num)
  linarith

theorem trendFactor_le (i : ℕ) : trendFactor i ≤ 3/20 := by
  unfold trendFactor
  have h : min (i:ℚ) 3 ≤ 3 := min_le_right _ _
  linarith

theorem trendValue_ge_high (R : Range) (count i : ℕ) {v : ℚ} (hv : 0 ≤ v) :
    v ≤ trendValue R true count i v := by
  unfold trendValue
  have h0 := trendFactor_nonneg i
  have hnv : v ≤ v * (1 + trendFactor i) := by nlinarith
  simp only [if_true]
  split
  · exact le_trans hnv (le_max_left _ _)
  · exact hnv

theorem trendValue_low_bound (R : Range) (count i : ℕ) {v fl : ℚ}
    (hfl : 0 < fl) (hv : fl ≤ v) (hB : fl ≤ R.min * (9/10)) :
    17/20 * fl ≤ trendValue R false count i v := by
  unfold trendValue
  have h0 := trendFactor_nonneg i
  have h1 := trendFactor_le i
  have hnv : 17/20 * fl ≤ v * (1 - trendFactor i) := by nlinarith
  simp only [Bool.false_eq_true, if_false]
  split
  · exact le_min hnv (by nlinarith)
  · exact hnv

theorem trendValue_clamp_high (R : Range) (count i : ℕ) (v : ℚ)
    (hclamp : count - 2 ≤ i) :
    R.max * (11/10) ≤ trendValue R true count i v := by
  unfold trendValue
  simp only [if_true]
  rw [if_pos hclamp]
  exact le_max_right _ _

theorem trendValue_clamp_low (R : Range) (count i : ℕ) (v : ℚ)
    (hclamp : count - 2 ≤ i) :
    trendValue R false count i v ≤ R.min * (9/10) := by
  unfold trendValue
  simp only [Bool.false_eq_true, if_false]
  rw [if_pos hclamp]
  exact min_le_right _ _

/-! ## The trending metric through a series step -/

theorem trend_step_wf (p : Patient) (count : ℕ) (aprob : ℚ) (rnd : SeriesRandom)
    (m : Metric) (i : ℕ) (hm : abnormalMetric aprob rnd = some m)
    (hwf : MetricWF m ((seriesTest p count aprob rnd i).value m)) :
    MetricWF m ((seriesTest p count aprob rnd (i + 1)).value m)
    ∧ (count - 2 ≤ i + 1 →
        (randomBoolean (rnd.dirDraws (i + 1)) (1/2) = true →
          ((getReferenceRanges p).get m).max * (11/10)
            ≤ (seriesTest p count aprob rnd (i + 1)).value m)
        ∧ (randomBoolean (rnd.dirDraws (i + 1)) (1/2) = false →
          (seriesTest p count aprob rnd (i + 1)).value m
            ≤ ((getReferenceRanges p).get m).min * (9/10))) := by
  obtain ⟨hfix, hfn, hfl⟩ := hwf
  obtain ⟨hmin, hmax, hpos, hmm, hpad, hfB, hmB, hfb, hmb, hBgt, hblt, hbfl, hlo⟩ :=
    ranges_ok p m
  have hfl0 := metricFloor_pos m
  have htvlow : 17/20 * metricFloor m
      ≤ trendValue ((getReferenceRanges p).get m)
          (randomBoolean (rnd.dirDraws (i + 1)) (1/2)) count (i + 1)
          ((seriesTest p count aprob rnd i).value m) := by
    cases hd : randomBoolean (rnd.dirDraws (i + 1)) (1/2)
    · exact trendValue_low_bound _ count (i + 1) hfl0 hfl hbfl
    · have h := trendValue_ge_high ((getReferenceRanges p).get m) count (i + 1)
        (le_trans (le_of_lt hfl0) hfl)
      nlinarith
  obtain ⟨hwffl, hb0⟩ := low_floor_fact m htvlow
  have hval : (seriesTest p count aprob rnd (i + 1)).value m
      = metricFmt m (formatNumber (trendValue ((getReferenceRanges p).get m)
          (randomBoolean (rnd.dirDraws (i + 1)) (1/2)) count (i + 1)
          ((seriesTest p count aprob rnd i).value m))) := by
    rw [seriesTest_succ_value_target p count aprob rnd m hm i]
    simp only [jsOr]
    rw [if_neg hb0]
  constructor
  · rw [hval]
    exact wf_of_fmt_ge m hwffl
  · intro hclamp
    constructor
    · intro hd
      have htv := trendValue_clamp_high ((getReferenceRanges p).get m) count (i + 1)
        ((seriesTest p count aprob rnd i).value m) hclamp
      rw [hval, hd]
      calc ((getReferenceRanges p).get m).max * (11/10)
          = metricFmt m (((getReferenceRanges p).get m).max * (11/10)) := hmB.symm
        _ ≤ metricFmt m (formatNumber (trendValue ((getReferenceRanges p).get m) true count (i + 1)
              ((seriesTest p count aprob rnd i).value m))) := by
            refine metricFmt_mono m ?_
            calc ((getReferenceRanges p).get m).max * (11/10)
                = formatNumber (((getReferenceRanges p).get m).max * (11/10)) := hfB.symm
              _ ≤ _ := formatNumber_mono htv
    · intro hd
      have htv := trendValue_clamp_low ((getReferenceRanges p).get m) count (i + 1)
        ((seriesTest p count aprob rnd i).value m) hclamp
      rw [hval, hd]
      calc metricFmt m (formatNumber (trendValue ((getReferenceRanges p).get m) false count (i + 1)
              ((seriesTest p count aprob rnd i).value m)))
          ≤ metricFmt m (((getReferenceRanges p).get m).min * (9/10)) := by
            refine metricFmt_mono m ?_
            calc formatNumber (trendValue ((getReferenceRanges p).get m) false count (i + 1)
                  ((seriesTest p count aprob rnd i).value m))
                ≤ formatNumber (((getReferenceRanges p).get m).min * (9/10)) :=
                  formatNumber_mono htv
              _ = _ := hfb
        _ = ((getReferenceRanges p).get m).min * (9/10) := hmb

theorem target_wf (p : Patient) (count : ℕ) (aprob : ℚ) (rnd : SeriesRandom)
    (m : Metric) (hm : abnormalMetric aprob rnd = some m)
    (hdraw0 : 0 ≤ (rnd.testRnds 0).get m) :
    ∀ i : ℕ, MetricWF m ((seriesTest p count aprob rnd i).value m) := by
  intro i
  induction i with
  | zero =>
    rw [seriesTest_zero_value]
    exact fresh_value_wf p m hdraw0
  | succ j ih =>
    exact (trend_step_wf p count aprob rnd m j hm ih).1

theorem target_clamped (p : Patient) (count : ℕ) (aprob : ℚ) (rnd : SeriesRandom)
    (m : Metric) (i : ℕ) (hm : abnormalMetric aprob rnd = some m)
    (hdraw0 : 0 ≤ (rnd.testRnds 0).get m)
    (hi : 1 ≤ i) (hclamp : count - 2 ≤ i) :
    (randomBoolean (rnd.dirDraws i) (1/2) = true →
      ((getReferenceRanges p).get m).max * (11/10) ≤ (seriesTest p count aprob rnd i).value m)
    ∧ (randomBoolean (rnd.dirDraws i) (1/2) = false →
      (seriesTest p count aprob rnd i).value m ≤ ((getReferenceRanges p).get m).min * (9/10)) := by
  obtain ⟨j, rfl⟩ : ∃ j, i = j + 1 := ⟨i - 1, by omega⟩
  exact (trend_step_wf p count aprob rnd m j hm
    (target_wf p count aprob rnd m hm hdraw0 j)).2 hclamp

theorem abnormalMetric_mem (aprob : ℚ) (rnd : SeriesRandom) (m : Metric)
    (h : abnormalMetric aprob rnd = some m) : m ∈ candidateMetrics := by
  unfold abnormalMetric at h
  split at h
  · have hd : ∀ n : ℕ, candidateMetrics.getD n .hemoglobin ∈ candidateMetrics := by
      intro n
      rcases lt_or_ge n candidateMetrics.length with hn | hn
      · rw [List.getD_eq_getElem _ _ hn]
        exact List.getElem_mem hn
      · rw [List.getD_eq_default _ _ hn]
        simp [candidateMetrics]
    obtain rfl : candidateMetrics.getD (⌊rnd.metricDraw * 10⌋).toNat .hemoglobin = m :=
      Option.some_injective _ h
    exact hd _
  · exact absurd h (by simp)

/-- C4 (amended): for every trending series with `count ≥ 2`, the FINAL
test's target-metric value is clamped strictly outside the stored reference
range — above `max` when the direction drawn at the final step is high,
below `min` when it is low — so its per-metric abnormal flag is true; the
second-to-last test is clamped the same way only when `count ≥ 3` (at
`count = 2` the first of the "last two" tests is the never-clamped test 0). -/
theorem trending_series_final_abnormal (p : Patient) (count : ℕ) (aprob : ℚ)
    (rnd : SeriesRandom) (m : Metric)
    (hm : abnormalMetric aprob rnd = some m)
    (hdraw0 : 0 ≤ (rnd.testRnds 0).get m)
    (hc : 2 ≤ count) :
    ∃ t, (generateBloodTestSeries p count aprob rnd)[count - 1]? = some t
      ∧ (t.value m < ((getReferenceRanges p).get m).min
          ∨ ((getReferenceRanges p).get m).max < t.value m)
      ∧ t.abnormalFlags.metricFlag m = true
      ∧ (3 ≤ count →
          ∃ u, (generateBloodTestSeries p count aprob rnd)[count - 2]? = some u
            ∧ (u.value m < ((getReferenceRanges p).get m).min
                ∨ ((getReferenceRanges p).get m).max < u.value m)) := by
  obtain ⟨-, -, -, -, -, -, -, -, -, hBgt, hblt, -, -⟩ := ranges_ok p m
  have outside : ∀ i : ℕ, 1 ≤ i → count - 2 ≤ i →
      ((seriesTest p count aprob rnd i).value m < ((getReferenceRanges p).get m).min
        ∨ ((getReferenceRanges p).get m).max < (seriesTest p count aprob rnd i).value m) := by
    intro i h1 h2
    obtain ⟨hhigh, hlow⟩ := target_clamped p count aprob rnd m i hm hdraw0 h1 h2
    cases hd : randomBoolean (rnd.dirDraws i) (1/2)
    · exact Or.inl (lt_of_le_of_lt (hlow hd) hblt)
    · exact Or.inr (lt_of_lt_of_le hBgt (hhigh hd))
  refine ⟨seriesTest p count aprob rnd (count - 1), ?_, ?_, ?_, ?_⟩
  · rw [generateBloodTestSeries_getElem, if_pos (by omega)]
  · exact outside (count - 1) (by omega) (by omega)
  · rw [seriesTest_flag, checkIsAbnormal_iff]
    exact outside (count - 1) (by omega) (by omega)
  · intro h3
    refine ⟨seriesTest p count aprob rnd (count - 2), ?_, ?_⟩
    · rw [generateBloodTestSeries_getElem, if_pos (by omega)]
    · exact outside (count - 2) (by omega) (by omega)

/-- C1 (amended): the target metric of a trending series is chosen once,
before the series, from the fixed 10-candidate list and stays fixed for the
whole series; the DIRECTION, however, is re-drawn by a fresh coin flip at
every trending step rather than fixed up-front.  For a trending series of
length ≥ 5 targeting hemoglobin, the final test's hemoglobin is
≥ `range.max * 1.1` when the direction drawn at the FINAL step is high, and
≤ `range.min * 0.9` when that draw is low. -/
theorem trending_series_final_direction (p : Patient) (count : ℕ) (aprob : ℚ)
    (rnd : SeriesRandom)
    (hm : abnormalMetric aprob rnd = some .hemoglobin)
    (hdraw0 : 0 ≤ (rnd.testRnds 0).get .hemoglobin)
    (hc : 5 ≤ count) :
    (∀ m : Metric, abnormalMetric aprob rnd = some m → m ∈ candidateMetrics)
    ∧ ∃ t, (generateBloodTestSeries p count aprob rnd)[count - 1]? = some t
      ∧ (randomBoolean (rnd.dirDraws (count - 1)) (1/2) = true →
          (getReferenceRanges p).hemoglobin.max * (11/10) ≤ t.hemoglobin)
      ∧ (randomBoolean (rnd.dirDraws (count - 1)) (1/2) = false →
          t.hemoglobin ≤ (getReferenceRanges p).hemoglobin.min * (9/10)) := by
  refine ⟨fun m hm' => abnormalMetric_mem aprob rnd m hm', ?_⟩
  obtain ⟨hhigh, hlow⟩ := target_clamped p count aprob rnd .hemoglobin (count - 1)
    hm hdraw0 (by omega) (by omega)
  refine ⟨seriesTest p count aprob rnd (count - 1), ?_, hhigh, hlow⟩
  rw [generateBloodTestSeries_getElem, if_pos (by omega)]

/-- C9: in a series whose trend draw came out false, every test after the
first carries exactly the same value as the first test, for each of the 13
metrics — only test 0 is randomized, each later test is seeded with its
predecessor's full value set, and the rounding functions fix already-rounded
values, so the whole series is constant. -/
theorem nontrending_series_constant (p : Patient) (count : ℕ) (aprob : ℚ)
    (rnd : SeriesRandom)
    (hnt : hasAbnormalTrend aprob rnd = false)
    (hdraws0 : TestDrawsInUnit (rnd.testRnds 0))
    (i : ℕ) (hi : i < count) (m : Metric) :
    ((generateBloodTestSeries p count aprob rnd)[i]?).map (fun t => t.value m)
      = ((generateBloodTestSeries p count aprob rnd)[0]?).map (fun t => t.value m) := by
  have hnone : abnormalMetric aprob rnd = none := by
    simp [abnormalMetric, hnt]
  have key : ∀ j : ℕ, ∀ m : Metric,
      (seriesTest p count aprob rnd j).value m = (seriesTest p count aprob rnd 0).value m
      ∧ MetricWF m ((seriesTest p count aprob rnd j).value m) := by
    intro j
    induction j with
    | zero =>
      intro m
      refine ⟨rfl, ?_⟩
      rw [seriesTest_zero_value]
      exact fresh_value_wf p m (hdraws0 m).1
    | succ k ih =>
      intro m
      obtain ⟨heq, hfix, hfn, hfl⟩ := ih m
      have hpos : (seriesTest p count aprob rnd k).value m ≠ 0 := by
        have := metricFloor_pos m
        intro h0
        rw [h0] at hfl
        linarith
      have hval : (seriesTest p count aprob rnd (k + 1)).value m
          = (seriesTest p count aprob rnd k).value m := by
        rw [seriesTest_succ_value_nontrend p count aprob rnd hnone k m]
        simp only [jsOr]
        rw [if_neg hpos, hfix]
      rw [hval]
      exact ⟨heq, hfix, hfn, hfl⟩
  rw [generateBloodTestSeries_getElem, generateBloodTestSeries_getElem,
    if_pos hi, if_pos (by omega : 0 < count)]
  simp [(key i m).1]

/-! ## Concrete series fixtures -/

/-- Trending series oracle targeting hemoglobin: trend draw 0 (< 0.3),
metric draw 0 (slot 0 = hemoglobin), direction draws high (0 < 0.5) at every
step except step 4 where the draw 9/10 makes the flip come out low, and all
per-test draws 1/2. -/
def cSeriesRnd : SeriesRandom :=
  ⟨fun _ => "2025-06-01", 0, 0, fun i => if i = 4 then 9/10 else 0, fun _ => halfDraws⟩

/-- Trending series oracle targeting hemoglobin with every direction draw
high. -/
def cSeriesRnd2 : SeriesRandom :=
  ⟨fun _ => "2025-06-01", 0, 0, fun _ => 0, fun _ => halfDraws⟩

/-- Non-trending series oracle: trend draw 1/2 ≥ 0.3. -/
def cSeriesRndN : SeriesRandom :=
  ⟨fun _ => "2025-06-01", 1/2, 0, fun _ => 0, fun _ => halfDraws⟩

theorem cSeriesRnd_metric : abnormalMetric (3/10) cSeriesRnd = some .hemoglobin := by
  norm_num [abnormalMetric, hasAbnormalTrend, randomBoolean, cSeriesRnd, candidateMetrics]

theorem cSeriesRnd2_metric : abnormalMetric (3/10) cSeriesRnd2 = some .hemoglobin := by
  norm_num [abnormalMetric, hasAbnormalTrend, randomBoolean, cSeriesRnd2, candidateMetrics]

theorem cSeriesRndN_nontrend : hasAbnormalTrend (3/10) cSeriesRndN = false := by
  norm_num [hasAbnormalTrend, randomBoolean, cSeriesRndN]

theorem halfDraws_in_unit : TestDrawsInUnit halfDraws := by
  intro m
  cases m <;> norm_num [TestRandom.get, halfDraws]

/-! ## Concrete series evaluations (hemoglobin values of the trending runs) -/

theorem cSeries_hgb_0 : (seriesTest cPatient 5 (3/10) cSeriesRnd 0).value .hemoglobin = 31/2 := by
  rw [seriesTest_zero_value]
  norm_num [cSeriesRnd, halfDraws, TestRandom.get, randomBoolean, trendValue,
      trendFactor, jsOr, metricFmt, formatNumber, randomInRange, getReferenceRanges,
      cPatient, maleReferenceRanges, BloodTestReferenceRanges.get, padLo, padHi,
      min_def, max_def]

theorem cSeries_hgb_1 : (seriesTest cPatient 5 (3/10) cSeriesRnd 1).value .hemoglobin = 407/25 := by
  rw [show (1:ℕ) = 0 + 1 from rfl,
    seriesTest_succ_value_target cPatient 5 (3/10) cSeriesRnd .hemoglobin cSeriesRnd_metric 0,
    cSeries_hgb_0]
  norm_num [cSeriesRnd, halfDraws, TestRandom.get, randomBoolean, trendValue,
      trendFactor, jsOr, metricFmt, formatNumber, randomInRange, getReferenceRanges,
      cPatient, maleReferenceRanges, BloodTestReferenceRanges.get, padLo, padHi,
      min_def, max_def]

theorem cSeries_hgb_2 : (seriesTest cPatient 5 (3/10) cSeriesRnd 2).value .hemoglobin = 1791/100 := by
  rw [show (2:ℕ) = 1 + 1 from rfl,
    seriesTest_succ_value_target cPatient 5 (3/10) cSeriesRnd .hemoglobin cSeriesRnd_metric 1,
    cSeries_hgb_1]
  norm_num [cSeriesRnd, halfDraws, TestRandom.get, randomBoolean, trendValue,
      trendFactor, jsOr, metricFmt, formatNumber, randomInRange, getReferenceRanges,
      cPatient, maleReferenceRanges, BloodTestReferenceRanges.get, padLo, padHi,
      min_def, max_def]

theorem cSeries_hgb_3 : (seriesTest cPatient 5 (3/10) cSeriesRnd 3).value .hemoglobin = 103/5 := by
  rw [show (3:ℕ) = 2 + 1 from rfl,
    seriesTest_succ_value_target cPatient 5 (3/10) cSeriesRnd .hemoglobin cSeriesRnd_metric 2,
    cSeries_hgb_2]
  norm_num [cSeriesRnd, halfDraws, TestRandom.get, randomBoolean, trendValue,
      trendFactor, jsOr, metricFmt, formatNumber, randomInRange, getReferenceRanges,
      cPatient, maleReferenceRanges, BloodTestReferenceRanges.get, padLo, padHi,
      min_def, max_def]

theorem cSeries_hgb_4 : (seriesTest cPatient 5 (3/10) cSeriesRnd 4).value .hemoglobin = 243/20 := by
  rw [show (4:ℕ) = 3 + 1 from rfl,
    seriesTest_succ_value_target cPatient 5 (3/10) cSeriesRnd .hemoglobin cSeriesRnd_metric 3,
    cSeries_hgb_3]
  norm_num [cSeriesRnd, halfDraws, TestRandom.get, randomBoolean, trendValue,
      trendFactor, jsOr, metricFmt, formatNumber, randomInRange, getReferenceRanges,
      cPatient, maleReferenceRanges, BloodTestReferenceRanges.get, padLo, padHi,
      min_def, max_def]

theorem cSeries2_hgb_0 :
    (seriesTest cPatient 2 (3/10) cSeriesRnd2 0).value .hemoglobin = 31/2 := by
  rw [seriesTest_zero_value]
  norm_num [cSeriesRnd2, halfDraws, TestRandom.get, metricFmt, formatNumber,
    randomInRange, getReferenceRanges, cPatient, maleReferenceRanges,
    BloodTestReferenceRanges.get, padLo, padHi]

/-- Counterexample to C1 as stated: in this trending run targeting
hemoglobin (count 5), test 3 is clamped ABOVE the range maximum (20.6 > 17.5)
while the final test 4 is clamped BELOW the range minimum (12.15 < 13.5) —
the direction is re-drawn per step, not chosen once before the series, and
the final value is below `range.max * 1.1` although the series had been
trending high. -/
theorem series_direction_not_fixed_counterexample :
    abnormalMetric (3/10) cSeriesRnd = some .hemoglobin
    ∧ ((generateBloodTestSeries cPatient 5 (3/10) cSeriesRnd)[3]?).map
        (fun t => t.value .hemoglobin) = some (103/5)
    ∧ ((generateBloodTestSeries cPatient 5 (3/10) cSeriesRnd)[4]?).map
        (fun t => t.value .hemoglobin) = some (243/20)
    ∧ ((35:ℚ)/2 < 103/5)
    ∧ ((243:ℚ)/20 < 27/2) := by
  refine ⟨cSeriesRnd_metric, ?_, ?_, by norm_num, by norm_num⟩
  · rw [generateBloodTestSeries_getElem, if_pos (by norm_num)]
    simp [cSeries_hgb_3]
  · rw [generateBloodTestSeries_getElem, if_pos (by norm_num)]
    simp [cSeries_hgb_4]

/-- Witness for C1's amended theorem: the all-high trending oracle at
count 5. -/
theorem trending_series_final_direction_witness :
    abnormalMetric (3/10) cSeriesRnd2 = some .hemoglobin
    ∧ 0 ≤ (cSeriesRnd2.testRnds 0).get .hemoglobin
    ∧ (5:ℕ) ≤ 5
    ∧ ((∀ m : Metric, abnormalMetric (3/10) cSeriesRnd2 = some m → m ∈ candidateMetrics)
      ∧ ∃ t, (generateBloodTestSeries cPatient 5 (3/10) cSeriesRnd2)[5 - 1]? = some t
        ∧ (randomBoolean (cSeriesRnd2.dirDraws (5 - 1)) (1/2) = true →
            (getReferenceRanges cPatient).hemoglobin.max * (11/10) ≤ t.hemoglobin)
        ∧ (randomBoolean (cSeriesRnd2.dirDraws (5 - 1)) (1/2) = false →
            t.hemoglobin ≤ (getReferenceRanges cPatient).hemoglobin.min * (9/10))) :=
  ⟨cSeriesRnd2_metric,
   by norm_num [cSeriesRnd2, halfDraws, TestRandom.get],
   by norm_num,
   trending_series_final_direction cPatient 5 (3/10) cSeriesRnd2 cSeriesRnd2_metric
     (by norm_num [cSeriesRnd2, halfDraws, TestRandom.get]) (by norm_num)⟩

/-- Counterexample to C4's "the last two tests clamp" clause: at count = 2
(allowed by the claim), the first of the last two tests is test 0, which is
drawn randomly and is neither `≥ range.max * 1.1` nor outside the range at
all in this run, despite the step-1 direction flip being high. -/
theorem last_two_clamp_counterexample :
    abnormalMetric (3/10) cSeriesRnd2 = some .hemoglobin
    ∧ randomBoolean (cSeriesRnd2.dirDraws 1) (1/2) = true
    ∧ ((generateBloodTestSeries cPatient 2 (3/10) cSeriesRnd2)[0]?).map
        (fun t => t.value .hemoglobin) = some (31/2)
    ∧ ¬((35:ℚ)/2 * (11/10) ≤ 31/2)
    ∧ ¬((31:ℚ)/2 < 27/2 ∨ (35:ℚ)/2 < 31/2) := by
  refine ⟨cSeriesRnd2_metric, ?_, ?_, by norm_num, by norm_num⟩
  · norm_num [cSeriesRnd2, randomBoolean]
  · rw [generateBloodTestSeries_getElem, if_pos (by norm_num)]
    simp [cSeries2_hgb_0]

/-- Witness for C4's amended theorem: the all-high trending oracle at
count 2. -/
theorem trending_series_final_abnormal_witness :
    abnormalMetric (3/10) cSeriesRnd2 = some .hemoglobin
    ∧ 0 ≤ (cSeriesRnd2.testRnds 0).get .hemoglobin
    ∧ (2:ℕ) ≤ 2
    ∧ (∃ t, (generateBloodTestSeries cPatient 2 (3/10) cSeriesRnd2)[2 - 1]? = some t
        ∧ (t.value .hemoglobin < ((getReferenceRanges cPatient).get .hemoglobin).min
            ∨ ((getReferenceRanges cPatient).get .hemoglobin).max < t.value .hemoglobin)
        ∧ t.abnormalFlags.metricFlag .hemoglobin = true
        ∧ (3 ≤ 2 →
            ∃ u, (generateBloodTestSeries cPatient 2 (3/10) cSeriesRnd2)[2 - 2]? = some u
              ∧ (u.value .hemoglobin < ((getReferenceRanges cPatient).get .hemoglobin).min
                  ∨ ((getReferenceRanges cPatient).get .hemoglobin).max < u.value .hemoglobin))) :=
  ⟨cSeriesRnd2_metric,
   by norm_num [cSeriesRnd2, halfDraws, TestRandom.get],
   by norm_num,
   trending_series_final_abnormal cPatient 2 (3/10) cSeriesRnd2 .hemoglobin
     cSeriesRnd2_metric (by norm_num [cSeriesRnd2, halfDraws, TestRandom.get]) (by norm_num)⟩

/-- Witness for C9: the non-trending oracle at count 2, index 1 vs index 0,
for hemoglobin. -/
theorem nontrending_series_constant_witness :
    hasAbnormalTrend (3/10) cSeriesRndN = false
    ∧ TestDrawsInUnit (cSeriesRndN.testRnds 0)
    ∧ (1:ℕ) < 2
    ∧ ((generateBloodTestSeries cPatient 2 (3/10) cSeriesRndN)[1]?).map
        (fun t => t.value .hemoglobin)
      = ((generateBloodTestSeries cPatient 2 (3/10) cSeriesRndN)[0]?).map
        (fun t => t.value .hemoglobin) :=
  ⟨cSeriesRndN_nontrend, halfDraws_in_unit, by norm_num,
   nontrending_series_constant cPatient 2 (3/10) cSeriesRndN cSeriesRndN_nontrend
     halfDraws_in_unit 1 (by norm_num) .hemoglobin⟩

end Anima